import Mathlib

/-!
Verification development for the crypto-signal-bot repository.

The Python sources are shallowly embedded over the rationals: every price,
equity, fee and percentage value is a rational number, timestamps of the
live risk gate are rational hours since an epoch (a calendar day spans 24
hours, day index 0 is a Monday), and the fallible position sizer returns an
option.  Components that the specification treats as external collaborators
(indicator math, regime detection, entry scoring, exchange and file access)
are not embedded; where an embedded function consumes their output, that
output appears as an explicit argument.

Embedded components and their sources:
  * src/risk/position_sizer.py        -> PositionSizer namespace
  * src/risk/risk_manager.py          -> RiskManager namespace
  * src/tracking/signal_tracker.py    -> SignalTracker namespace
    (plus the adaptive-stop application step of src/main.py)
  * backtest/engine.py                -> BacktestEngine namespace
-/

/-- Truncation toward zero, the behaviour of Python int() on a float. -/
def pyInt (x : ℚ) : ℤ :=
  if 0 ≤ x then ⌊x⌋ else -⌊-x⌋

/-- Round a rational to the nearest integer with ties going to the even
integer (the rounding used by Python round()). -/
def pyRoundInt (x : ℚ) : ℤ :=
  let f : ℤ := ⌊x⌋
  let r : ℚ := x - f
  if r < 1/2 then f
  else if 1/2 < r then f + 1
  else if f % 2 = 0 then f else f + 1

/-- Python round(x, n): round to n decimal places, ties to even. -/
def pyRound (x : ℚ) (n : ℕ) : ℚ :=
  (pyRoundInt (x * 10 ^ n) : ℚ) / 10 ^ n

namespace PositionSizer

/-- Configuration constants consumed by PositionSizer.calculate_position_size
(src/core/config.py: RISK_PER_TRADE, MAX_LEVERAGE). -/
structure SizerConfig where
  risk_per_trade : ℚ
  max_leverage : ℚ
deriving Repr, DecidableEq

/-- The values of src/core/config.py: RISK_PER_TRADE = 0.01, MAX_LEVERAGE = 15. -/
def liveSizerConfig : SizerConfig := { risk_per_trade := 1/100, max_leverage := 15 }

/-- PositionSizer._determine_leverage_for_stop (position_sizer.py:9-39). -/
def determine_leverage_for_stop (stop_distance_pct : ℚ) : ℚ :=
  let stop_pct := stop_distance_pct * 100
  if stop_pct < 1 then 11
  else if stop_pct < 3/2 then 9
  else if stop_pct < 5/2 then 7
  else if stop_pct < 7/2 then 6
  else 5

/-- The dict returned by PositionSizer.calculate_position_size
(position_sizer.py:145-154), with the same 6/2-decimal rounding. -/
structure SizeResult where
  contracts : ℚ
  notional_usd : ℚ
  leverage : ℚ
  risk_usd : ℚ
  margin_used : ℚ
  margin_percent : ℚ
  stop_distance_pct : ℚ
  stop_distance_usd : ℚ
deriving Repr, DecidableEq

/-- PositionSizer.calculate_position_size (position_sizer.py:41-158).
Returns none exactly where the Python function returns the empty dict:
when the stop distance fraction is zero (the explicit early return), and
when the account equity is zero, where the division at margin_percent =
(margin_required / account_equity) * 100 (position_sizer.py:95) raises
ZeroDivisionError and the surrounding except-handler returns the empty
dict.  A zero entry price makes the stop distance fraction zero here,
matching the Python code, where the stop-distance division itself raises
into the same handler.  The symbol argument is only used for logging and
is dropped. -/
def calculate_position_size (cfg : SizerConfig) (account_equity entry_price stop_loss : ℚ)
    (available_margin : Option ℚ) : Option SizeResult :=
  let risk_amount := account_equity * cfg.risk_per_trade
  let stop_distance_pct := |entry_price - stop_loss| / entry_price
  if stop_distance_pct = 0 then none
  else if account_equity = 0 then none
  else
    let position_size_usd := risk_amount / stop_distance_pct
    let isolated_leverage := determine_leverage_for_stop stop_distance_pct
    let isolated_leverage :=
      if isolated_leverage > cfg.max_leverage then cfg.max_leverage else isolated_leverage
    let margin_required := position_size_usd / isolated_leverage
    let margin_percent := margin_required / account_equity * 100
    -- resize to fit the available margin, keeping the leverage
    let resized : Bool :=
      match available_margin with
      | some am => decide (margin_required > am)
      | none => false
    let position_size_usd :=
      if resized then (available_margin.getD 0) * isolated_leverage else position_size_usd
    let margin_required := if resized then available_margin.getD 0 else margin_required
    let margin_percent :=
      if resized then margin_required / account_equity * 100 else margin_percent
    let risk_amount := if resized then position_size_usd * stop_distance_pct else risk_amount
    -- sanity check: a single position requiring > 40% margin raises leverage instead
    let over40 : Bool := decide (margin_percent > 40)
    let isolated_leverage :=
      if over40 then position_size_usd / (account_equity * (40/100)) else isolated_leverage
    let isolated_leverage :=
      if over40 ∧ isolated_leverage > cfg.max_leverage then cfg.max_leverage
      else isolated_leverage
    let margin_required := if over40 then position_size_usd / isolated_leverage else margin_required
    let margin_percent := if over40 then margin_required / account_equity * 100 else margin_percent
    let contracts := position_size_usd / entry_price
    some {
      contracts := pyRound contracts 6
      notional_usd := pyRound position_size_usd 2
      leverage := pyRound isolated_leverage 2
      risk_usd := pyRound risk_amount 2
      margin_used := pyRound margin_required 2
      margin_percent := pyRound margin_percent 2
      stop_distance_pct := pyRound (stop_distance_pct * 100) 2
      stop_distance_usd := pyRound (|entry_price - stop_loss| * contracts) 2
    }

/-- The market-constraint record consumed by
PositionSizer.validate_position_size; none models a missing (None) entry. -/
structure MarketInfo where
  min_order_size : Option ℚ
  max_order_size : Option ℚ
  min_notional : Option ℚ
deriving Repr, DecidableEq

/-- PositionSizer.validate_position_size (position_sizer.py:160-194).
The Python code reads each bound with a falsy-or default, so a missing or
zero min_order_size / min_notional becomes 0 and a missing or zero
max_order_size becomes infinity (modelled as no upper check). -/
def validate_position_size (contracts notional_usd : ℚ) (mi : MarketInfo) : Bool :=
  let min_size := if mi.min_order_size.getD 0 = 0 then 0 else mi.min_order_size.getD 0
  let min_notional := if mi.min_notional.getD 0 = 0 then 0 else mi.min_notional.getD 0
  if contracts < min_size then false
  else if (match mi.max_order_size with
           | some mx => if mx = 0 then false else contracts > mx
           | none => false) then false
  else if notional_usd < min_notional then false
  else true

end PositionSizer

namespace RiskManager

/-- Configuration constants consumed by RiskManager (src/core/config.py:
MAX_WEEKLY_LOSS = 0.06, MAX_CONSECUTIVE_LOSSES = 3). -/
structure RMConfig where
  max_weekly_loss : ℚ
  max_consecutive_losses : ℕ
deriving Repr, DecidableEq

/-- The live configuration values. -/
def liveRMConfig : RMConfig := { max_weekly_loss := 6/100, max_consecutive_losses := 3 }

/-- Mutable state of RiskManager (risk_manager.py:11-23).  Wall-clock time is
a rational number of hours since an epoch; a calendar date is its day index. -/
structure RMState where
  equity : ℚ
  daily_loss : ℚ
  weekly_loss : ℚ
  weekly_pnl : ℚ
  daily_pnl : ℚ
  consecutive_losses : ℕ
  trading_enabled : Bool
  cooldown_until : Option ℚ
  weekly_cooldown_until : Option ℚ
  last_reset_date : ℤ
  last_weekly_reset : ℤ
deriving Repr, DecidableEq

/-- Day index of an instant t (hours): datetime.now().date(). -/
def dateOf (t : ℚ) : ℤ := ⌊t / 24⌋

/-- date.weekday() == 0, with day index 0 chosen to be a Monday. -/
def isMonday (d : ℤ) : Bool := d % 7 = 0

/-- Why can_trade refused (the formatted message strings of
risk_manager.py are reduced to their branch). -/
inductive Refusal where
  | cooldown
  | weeklyCooldown
  | weeklyLimit
  | consecutiveLosses
deriving Repr, DecidableEq

/-- RiskManager._check_daily_reset (risk_manager.py:168-225), reset branch
only (the report side effects go to external collaborators). -/
def check_daily_reset (cfg : RMConfig) (s : RMState) (t : ℚ) : RMState :=
  if dateOf t > s.last_reset_date then
    let s := { s with daily_pnl := 0, daily_loss := 0, last_reset_date := dateOf t }
    if |s.weekly_loss / s.equity| < cfg.max_weekly_loss then
      { s with trading_enabled := true, cooldown_until := none }
    else s
  else s

/-- RiskManager._check_weekly_reset (risk_manager.py:227-270). -/
def check_weekly_reset (s : RMState) (t : ℚ) : RMState :=
  if isMonday (dateOf t) ∧ dateOf t > s.last_weekly_reset then
    { s with weekly_loss := 0, weekly_pnl := 0, last_weekly_reset := dateOf t,
             trading_enabled := true, cooldown_until := none,
             weekly_cooldown_until := none }
  else s

/-- The tail of RiskManager.can_trade after the weekly-cooldown expiry
check cleared it (risk_manager.py:77-97): weekly loss limit, then
consecutive losses, then the allow verdict. -/
def can_trade_tail (cfg : RMConfig) (s : RMState) (t : ℚ) : RMState × Bool × Option Refusal :=
  if s.weekly_pnl < 0 ∧ |s.weekly_pnl / s.equity| ≥ cfg.max_weekly_loss then
    ({ s with weekly_cooldown_until := some (t + 24) }, false, some .weeklyLimit)
  else if s.consecutive_losses ≥ cfg.max_consecutive_losses then
    (s, false, some .consecutiveLosses)
  else (s, true, none)

/-- RiskManager.can_trade from the weekly-cooldown check onward
(risk_manager.py:66-97). -/
def can_trade_rest (cfg : RMConfig) (s : RMState) (t : ℚ) : RMState × Bool × Option Refusal :=
  match s.weekly_cooldown_until with
  | some c =>
    if t < c then (s, false, some .weeklyCooldown)
    else can_trade_tail cfg { s with weekly_cooldown_until := none } t
  | none => can_trade_tail cfg s t

/-- RiskManager.can_trade (risk_manager.py:36-97).  Returns the state after
the auto-resets and cooldown-expiry mutations together with the verdict. -/
def can_trade (cfg : RMConfig) (s : RMState) (t : ℚ) : RMState × Bool × Option Refusal :=
  let s := check_daily_reset cfg s t
  let s := check_weekly_reset s t
  -- cooldown check; expiry clears it and resets the consecutive-loss counter
  match s.cooldown_until with
  | some c =>
    if t < c then (s, false, some .cooldown)
    else can_trade_rest cfg { s with cooldown_until := none, consecutive_losses := 0 } t
  | none => can_trade_rest cfg s t

/-- RiskManager.record_trade (risk_manager.py:99-133). -/
def record_trade (cfg : RMConfig) (s : RMState) (pnl : ℚ) (t : ℚ) : RMState :=
  let s := { s with equity := s.equity + pnl, daily_pnl := s.daily_pnl + pnl,
                    weekly_pnl := s.weekly_pnl + pnl }
  if pnl < 0 then
    let s := { s with daily_loss := s.daily_loss + pnl, weekly_loss := s.weekly_loss + pnl,
                      consecutive_losses := s.consecutive_losses + 1 }
    if s.consecutive_losses ≥ cfg.max_consecutive_losses then
      { s with cooldown_until := some (t + 4) }
    else s
  else { s with consecutive_losses := 0 }

end RiskManager

/-- One take-profit level of the ladder: {price, close_percent}.  (Shared
by the live tracker's signal dicts and the backtest Position dataclass.) -/
structure TPLevel where
  price : ℚ
  close_percent : ℚ
deriving Repr, DecidableEq

/-- The three-level take-profit ladder dict. -/
structure TakeProfits where
  tp1 : TPLevel
  tp2 : TPLevel
  tp3 : TPLevel
deriving Repr, DecidableEq

/-- Lookup of take_profits[tp_level]. -/
def tpLevelOf (tps : TakeProfits) (level : String) : TPLevel :=
  if level = "tp1" then tps.tp1 else if level = "tp2" then tps.tp2 else tps.tp3

namespace BacktestEngine

/-- The fields of a historical candle that BacktestEngine._update_positions
reads (engine.py:224-226). -/
structure Candle where
  high : ℚ
  low : ℚ
  close : ℚ
deriving Repr, DecidableEq

/-- The BacktestConfig constants consumed by the engine
(backtest/config.py). -/
structure BTConfig where
  slippage_percent : ℚ
  taker_fee : ℚ
  stop_loss_slippage : ℚ
  use_market_orders : Bool
  conservative_mode : Bool
  adaptive_stop_enabled : Bool
  adaptive_stop_min_profit_r : ℚ
  adaptive_stop_volatility_spike : ℚ
  adaptive_stop_regime_change : Bool
  adaptive_stop_breakeven_buffer : ℚ
  adaptive_stop_partial_protection : Bool
  max_consecutive_losses : ℕ
  cooldown_hours : ℚ
deriving Repr, DecidableEq

/-- The concrete values of backtest/config.py (slippage 0.05%, taker fee
0.055%, stop slippage 0.1%, conservative mode on, adaptive stop on with
min 0.4R / 1.6x ATR spike / 0.15% breakeven buffer, 3 losses, 12h). -/
def backtestConfig : BTConfig := {
  slippage_percent := 1/20
  taker_fee := 11/200
  stop_loss_slippage := 1/10
  use_market_orders := true
  conservative_mode := true
  adaptive_stop_enabled := true
  adaptive_stop_min_profit_r := 2/5
  adaptive_stop_volatility_spike := 8/5
  adaptive_stop_regime_change := true
  adaptive_stop_breakeven_buffer := 3/2000
  adaptive_stop_partial_protection := true
  max_consecutive_losses := 3
  cooldown_hours := 12 }

/-- The Position dataclass (engine.py:41-66), with the fields the update
step reads and writes. -/
structure Position where
  symbol : String
  direction : String
  entry_price : ℚ
  stop_loss : ℚ
  take_profits : TakeProfits
  contracts : ℚ
  tp1_hit : Bool := false
  tp2_hit : Bool := false
  tp3_hit : Bool := false
  remaining_percent : ℚ := 100
  realized_pnl : ℚ := 0
  entry_atr : ℚ := 0
  adaptive_stop_triggered : Bool := false
  regime : String := "unknown"
deriving Repr, DecidableEq

/-- BacktestEngine._check_adaptive_stop_trigger (engine.py:651-724).  The
formatted reason strings are reduced to constant tags. -/
def check_adaptive_stop_trigger (cfg : BTConfig) (p : Position)
    (current_price current_atr : ℚ) (current_regime : String) (entry_atr : ℚ) :
    Bool × Option ℚ × String :=
  let entry := p.entry_price
  let original_stop := p.stop_loss
  let stop_distance := if p.direction = "long" then entry - original_stop else original_stop - entry
  let profit_distance := if p.direction = "long" then current_price - entry else entry - current_price
  if stop_distance ≤ 0 then (false, none, "invalid stop distance")
  else
    let profit_r := profit_distance / stop_distance
    if profit_r < cfg.adaptive_stop_min_profit_r then (false, none, "profit below threshold")
    else
      let volSpike : Bool :=
        decide (entry_atr > 0 ∧ current_atr > entry_atr * cfg.adaptive_stop_volatility_spike)
      let regimeChange : Bool := cfg.adaptive_stop_regime_change &&
        decide (p.regime ∈ ["trending", "strong_trend"] ∧
                current_regime ∈ ["choppy", "ranging", "low_volatility"])
      let trigger_reason :=
        if volSpike then (if regimeChange then "volatility spike + regime change"
                          else "volatility spike")
        else (if regimeChange then "regime change" else "")
      if trigger_reason = "" then (false, none, "no trigger conditions met")
      else
        let buffer := entry * cfg.adaptive_stop_breakeven_buffer
        if p.direction = "long" then
          let new_stop := entry + buffer
          if new_stop ≤ p.stop_loss then (false, none, "would widen stop")
          else (true, some new_stop, trigger_reason)
        else
          let new_stop := entry - buffer
          if new_stop ≥ p.stop_loss then (false, none, "would widen stop")
          else (true, some new_stop, trigger_reason)

/-- The adaptive-stop phase of BacktestEngine._update_positions
(engine.py:228-260).  The multi-timeframe market context is passed as
mtf = some (current_atr, current_regime) when _get_mtf_data returned data,
none otherwise.  Both the partial and the full protection branch of the
engine perform the same state change.  (The Python guard is
"should_trigger and new_stop", so a zero new-stop price is treated as
falsy and ignored.) -/
def adaptive_phase (cfg : BTConfig) (p : Position) (close : ℚ)
    (mtf : Option (ℚ × String)) : Position :=
  if cfg.adaptive_stop_enabled ∧ ¬p.adaptive_stop_triggered then
    match mtf with
    | some (current_atr, current_regime) =>
      match check_adaptive_stop_trigger cfg p close current_atr current_regime p.entry_atr with
      | (true, some new_stop, _) =>
        if new_stop = 0 then p
        else { p with stop_loss := new_stop, adaptive_stop_triggered := true }
      | _ => p
    | none => p
  else p

/-- BacktestEngine._handle_tp_hit (engine.py:300-346), the position
mutations and the exit price (the fee/equity accumulators of the engine
object are not tracked here; the recording of a completed trade when
remaining_percent reaches 0 is handled by the caller hit_phase). -/
def handle_tp_hit (cfg : BTConfig) (p : Position) (tp_level : String) (tp_price : ℚ) :
    Position × ℚ :=
  let exit_price :=
    if cfg.use_market_orders then
      if p.direction = "long" then tp_price * (1 - cfg.slippage_percent / 100)
      else tp_price * (1 + cfg.slippage_percent / 100)
    else tp_price
  let close_percent := (tpLevelOf p.take_profits tp_level).close_percent
  let portion_contracts := p.contracts * (close_percent / 100)
  let pnl :=
    if p.direction = "long" then (exit_price - p.entry_price) * portion_contracts
    else (p.entry_price - exit_price) * portion_contracts
  let fee := exit_price * portion_contracts * (cfg.taker_fee / 100)
  let pnl := pnl - fee
  let p := { p with realized_pnl := p.realized_pnl + pnl,
                    remaining_percent := p.remaining_percent - close_percent }
  let p :=
    if tp_level = "tp1" then { p with tp1_hit := true }
    else if tp_level = "tp2" then { p with tp2_hit := true }
    else if tp_level = "tp3" then { p with tp3_hit := true }
    else p
  let p :=
    if tp_level = "tp1" then
      { p with stop_loss :=
          if p.direction = "long" then p.stop_loss + (p.entry_price - p.stop_loss) * (1/2)
          else p.stop_loss - (p.stop_loss - p.entry_price) * (1/2) }
    else if tp_level = "tp2" then { p with stop_loss := p.entry_price }
    else p
  (p, exit_price)

/-- BacktestEngine._close_position (engine.py:348-380): slippage, PnL on
the remaining fraction, fee; returns the mutated position and the final
exit price. -/
def close_position (cfg : BTConfig) (p : Position) (exit_price : ℚ) (sl_hit : Bool) :
    Position × ℚ :=
  let exit_price :=
    if sl_hit then
      if p.direction = "long" then exit_price * (1 - cfg.stop_loss_slippage / 100)
      else exit_price * (1 + cfg.stop_loss_slippage / 100)
    else if cfg.use_market_orders then
      if p.direction = "long" then exit_price * (1 - cfg.slippage_percent / 100)
      else exit_price * (1 + cfg.slippage_percent / 100)
    else exit_price
  let remaining_contracts := p.contracts * (p.remaining_percent / 100)
  let pnl :=
    if p.direction = "long" then (exit_price - p.entry_price) * remaining_contracts
    else (p.entry_price - exit_price) * remaining_contracts
  let fee := exit_price * remaining_contracts * (cfg.taker_fee / 100)
  let pnl := pnl - fee
  ({ p with realized_pnl := p.realized_pnl + pnl }, exit_price)

/-- Result of evaluating one position on one candle: the mutated position,
which TP fill (if any) was applied, whether the symbol was scheduled for
removal from active_positions, and the Trade records produced
(exit_reason, exit_price). -/
structure StepResult where
  position : Position
  tp_filled : Option String
  closed : Bool
  recorded : List (String × ℚ)
deriving Repr, DecidableEq

/-- The local sl_hit of _update_positions (engine.py:264/269). -/
def crossed_sl (p : Position) (c : Candle) : Bool :=
  if p.direction = "long" then decide (c.low ≤ p.stop_loss) else decide (c.high ≥ p.stop_loss)

/-- The local tp1_hit of _update_positions (engine.py:265/270). -/
def crossed_tp1 (p : Position) (c : Candle) : Bool :=
  (!p.tp1_hit) &&
    (if p.direction = "long" then decide (c.high ≥ p.take_profits.tp1.price)
     else decide (c.low ≤ p.take_profits.tp1.price))

/-- The local tp2_hit of _update_positions (engine.py:266/271): gated by
the prior level's hit flag. -/
def crossed_tp2 (p : Position) (c : Candle) : Bool :=
  (!p.tp2_hit) && p.tp1_hit &&
    (if p.direction = "long" then decide (c.high ≥ p.take_profits.tp2.price)
     else decide (c.low ≤ p.take_profits.tp2.price))

/-- The local tp3_hit of _update_positions (engine.py:267/272). -/
def crossed_tp3 (p : Position) (c : Candle) : Bool :=
  (!p.tp3_hit) && p.tp2_hit &&
    (if p.direction = "long" then decide (c.high ≥ p.take_profits.tp3.price)
     else decide (c.low ≤ p.take_profits.tp3.price))

/-- The tp3/tp2/tp1 elif chain of _update_positions (engine.py:281-288),
given the crossing flags: at most one TP fill per candle; tp3 also
schedules the symbol for removal, and a fill that exhausts the position
records a completed trade (engine.py:344-346). -/
def tp_chain (cfg : BTConfig) (p : Position) (t1 t2 t3 : Bool) :
    Position × Option String × Bool × List (String × ℚ) :=
  if t3 then
    let pr := handle_tp_hit cfg p "tp3" p.take_profits.tp3.price
    (pr.1, some "tp3", true,
     if pr.1.remaining_percent ≤ 0 then [("completed", pr.2)] else ([] : List (String × ℚ)))
  else if t2 then
    let pr := handle_tp_hit cfg p "tp2" p.take_profits.tp2.price
    (pr.1, some "tp2", false,
     if pr.1.remaining_percent ≤ 0 then [("completed", pr.2)] else [])
  else if t1 then
    let pr := handle_tp_hit cfg p "tp1" p.take_profits.tp1.price
    (pr.1, some "tp1", false,
     if pr.1.remaining_percent ≤ 0 then [("completed", pr.2)] else [])
  else (p, none, false, [])

/-- The hit-detection part of BacktestEngine._update_positions for one
position (engine.py:262-293): conservative same-candle collision first,
then the tp3/tp2/tp1 chain, then the stop-loss check. -/
def hit_phase (cfg : BTConfig) (p : Position) (c : Candle) : StepResult :=
  if cfg.conservative_mode && crossed_sl p c &&
      (crossed_tp1 p c || crossed_tp2 p c || crossed_tp3 p c) then
    let pr := close_position cfg p p.stop_loss true
    { position := pr.1, tp_filled := none, closed := true, recorded := [("stopped", pr.2)] }
  else
    match tp_chain cfg p (crossed_tp1 p c) (crossed_tp2 p c) (crossed_tp3 p c) with
    | (p1, tpf, closed1, rec1) =>
      if crossed_sl p c && !closed1 then
        let pr := close_position cfg p1 p1.stop_loss true
        { position := pr.1, tp_filled := tpf, closed := true,
          recorded := rec1 ++ [("stopped", pr.2)] }
      else
        { position := p1, tp_filled := tpf, closed := closed1, recorded := rec1 }

/-- One position's full evaluation step on one historical candle
(BacktestEngine._update_positions, engine.py:209-293): the adaptive-stop
phase on the candle close, then hit detection. -/
def update_position (cfg : BTConfig) (p : Position) (c : Candle)
    (mtf : Option (ℚ × String)) : StepResult :=
  hit_phase cfg (adaptive_phase cfg p c.close mtf) c

/-- The consecutive-loss / cooldown bookkeeping of
BacktestEngine._record_trade (engine.py:409-416). -/
def record_trade_losses (cfg : BTConfig) (consecutive_losses : ℕ)
    (cooldown_until : Option ℚ) (realized_pnl exit_time : ℚ) : ℕ × Option ℚ :=
  if realized_pnl < 0 then
    let c := consecutive_losses + 1
    if c ≥ cfg.max_consecutive_losses then (c, some (exit_time + cfg.cooldown_hours))
    else (c, cooldown_until)
  else (0, cooldown_until)

/-- A per-timeframe OHLCV table: rows of (timestamp, candle), as the
engine's DataFrames indexed by timestamp. -/
abbrev Series := List (ℚ × Candle)

/-- The pandas slice df[df.index <= current_time]. -/
def sliceLE (T : ℚ) (s : Series) : Series := s.filter fun r => decide (r.1 ≤ T)

/-- The pandas .tail(n): the last n rows. -/
def tailN (n : ℕ) (s : Series) : Series := s.drop (s.length - n)

/-- One symbol's three stored timeframes (self.data[symbol]). -/
structure SymbolData where
  htf : Series
  primary : Series
  entry : Series
deriving Repr, DecidableEq

/-- The multi-timeframe context dict handed to indicator computation,
regime detection, entry evaluation and scoring. -/
structure MtfData where
  htf : Series
  primary : Series
  entry : Series
deriving Repr, DecidableEq

/-- BacktestEngine._get_mtf_data (engine.py:600-627): each timeframe is
sliced to timestamps at or before current_time, then cut to the last 200
rows; empty frames yield none. -/
def get_mtf_data (d : SymbolData) (T : ℚ) : Option MtfData :=
  let htf_data := tailN 200 (sliceLE T d.htf)
  let primary_data := tailN 200 (sliceLE T d.primary)
  let entry_data := tailN 200 (sliceLE T d.entry)
  if htf_data.isEmpty ∨ primary_data.isEmpty ∨ entry_data.isEmpty then none
  else some ⟨htf_data, primary_data, entry_data⟩

end BacktestEngine

namespace SignalTracker

/-- Configuration constants consumed by SignalTracker and the adaptive-stop
application step of src/main.py (src/core/config.py). -/
structure TrackerConfig where
  near_tp_enabled : Bool
  near_tp_threshold : ℚ
  adaptive_stop_enabled : Bool
  adaptive_stop_min_profit_r : ℚ
  adaptive_stop_volatility_spike : ℚ
  adaptive_stop_breakeven_buffer : ℚ
  adaptive_stop_partial_protection : Bool
deriving Repr, DecidableEq

/-- The live configuration values (NEAR_TP_THRESHOLD = 0.92,
ADAPTIVE_STOP_MIN_PROFIT_R = 0.4, volatility spike 1.6, breakeven buffer
0.0015, partial protection on). -/
def liveTrackerConfig : TrackerConfig := {
  near_tp_enabled := true
  near_tp_threshold := 23/25
  adaptive_stop_enabled := true
  adaptive_stop_min_profit_r := 2/5
  adaptive_stop_volatility_spike := 8/5
  adaptive_stop_breakeven_buffer := 3/2000
  adaptive_stop_partial_protection := true }

/-- The signal dict built by SignalTracker.create_signal
(signal_tracker.py:125-151); contracts is position_size['contracts'].
status is "active" while the signal is in active_signals and becomes the
closing status string when _close_signal moves it to history. -/
structure Signal where
  symbol : String
  direction : String
  entry_price : ℚ
  stop_loss : ℚ
  original_stop_loss : ℚ
  take_profits : TakeProfits
  contracts : ℚ
  status : String := "active"
  tp1_hit : Bool := false
  tp2_hit : Bool := false
  tp3_hit : Bool := false
  stop_hit : Bool := false
  remaining_percent : ℚ := 100
  realized_pnl : ℚ := 0
  current_price : ℚ
  best_price : ℚ
  entry_atr : ℚ := 0
  entry_regime : String := "unknown"
  adaptive_stop_triggered : Bool := false
  partial_protection_active : Bool := false
deriving Repr, DecidableEq

/-- The hit-information dict returned by the tracker's handlers (only the
fields consumed elsewhere are kept; the embedded signal copy is dropped). -/
inductive HitInfo where
  | tp_hit (level : String) (price close_percent pnl total_pnl remaining_percent
      new_stop_loss : ℚ)
  | stop_hit (price loss total_pnl : ℚ)
  | partial_protection_exit (price partial_pnl percent_remaining new_stop : ℚ)
deriving Repr, DecidableEq

/-- SignalTracker._calculate_trailing_stop (signal_tracker.py:296-331).
The local variable the source calls original_stop is the signal's current
stop_loss. -/
def calculate_trailing_stop (signal : Signal) (tp_level : String) : ℚ :=
  let entry_price := signal.entry_price
  let original_stop := signal.stop_loss
  if tp_level = "tp1" then
    if signal.direction = "long" then original_stop + (entry_price - original_stop) * (1/2)
    else original_stop - (original_stop - entry_price) * (1/2)
  else if tp_level = "tp2" then entry_price
  else if tp_level = "tp3" then signal.stop_loss
  else signal.stop_loss

/-- SignalTracker._handle_tp_hit (signal_tracker.py:333-392).  PnL for the
closed portion is computed at the signal's current_price; the stop is
trailed; when remaining_percent reaches 0 the signal is closed as
"completed" (_close_signal).  The early_exit argument only changes
logging and is dropped. -/
def handle_tp_hit (signal : Signal) (tp_level : String) : Signal × HitInfo :=
  let signal :=
    if tp_level = "tp1" then { signal with tp1_hit := true }
    else if tp_level = "tp2" then { signal with tp2_hit := true }
    else if tp_level = "tp3" then { signal with tp3_hit := true }
    else signal
  let close_percent := (tpLevelOf signal.take_profits tp_level).close_percent
  let entry_price := signal.entry_price
  let current_price := signal.current_price
  let portion_contracts := signal.contracts * (close_percent / 100)
  let pnl :=
    if signal.direction = "long" then (current_price - entry_price) * portion_contracts
    else (entry_price - current_price) * portion_contracts
  let signal := { signal with realized_pnl := signal.realized_pnl + pnl,
                              remaining_percent := signal.remaining_percent - close_percent }
  let old_stop := signal.stop_loss
  let new_stop := calculate_trailing_stop signal tp_level
  let signal := if new_stop ≠ old_stop then { signal with stop_loss := new_stop } else signal
  let hit_info := HitInfo.tp_hit tp_level current_price close_percent pnl signal.realized_pnl
    signal.remaining_percent new_stop
  let signal :=
    if signal.remaining_percent ≤ 0 then { signal with status := "completed" } else signal
  (signal, hit_info)

/-- The next-unhit-TP-level selection of
SignalTracker._check_near_tp_reversal (signal_tracker.py:256-264). -/
def next_tp_level (signal : Signal) : Option String :=
  if ¬signal.tp1_hit then some "tp1"
  else if ¬signal.tp2_hit then some "tp2"
  else if ¬signal.tp3_hit then some "tp3"
  else none

/-- SignalTracker._check_near_tp_reversal (signal_tracker.py:240-294). -/
def check_near_tp_reversal (cfg : TrackerConfig) (signal : Signal) :
    Option (Signal × HitInfo) :=
  let entry := signal.entry_price
  let current := signal.current_price
  let best := signal.best_price
  match next_tp_level signal with
  | none => none
  | some lvl =>
    let next_tp_price := (tpLevelOf signal.take_profits lvl).price
    if signal.direction = "long" then
      let distance_to_tp := next_tp_price - entry
      let best_progress := best - entry
      let progress_pct := if distance_to_tp > 0 then best_progress / distance_to_tp else 0
      if progress_pct ≥ cfg.near_tp_threshold then
        let pullback_pct := if best > 0 then (best - current) / best else 0
        if pullback_pct ≥ 5/1000 then some (handle_tp_hit signal lvl) else none
      else none
    else
      let distance_to_tp := entry - next_tp_price
      let best_progress := entry - best
      let progress_pct := if distance_to_tp > 0 then best_progress / distance_to_tp else 0
      if progress_pct ≥ cfg.near_tp_threshold then
        let pullback_pct := if best > 0 then (current - best) / best else 0
        if pullback_pct ≥ 5/1000 then some (handle_tp_hit signal lvl) else none
      else none

/-- SignalTracker._handle_stop_loss_hit (signal_tracker.py:394-479).  With
partial protection active: exit half of the remaining position at
breakeven plus buffer, halve remaining_percent, restore the original stop
and deactivate partial protection.  Otherwise: full stop-loss close; the
loss is reported in the hit info but, as in the source, not added to the
signal's realized_pnl field. -/
def handle_stop_loss_hit (cfg : TrackerConfig) (signal : Signal) : Signal × HitInfo :=
  if signal.partial_protection_active then
    let entry_price := signal.entry_price
    let buffer := entry_price * cfg.adaptive_stop_breakeven_buffer
    let exit_price :=
      if signal.direction = "long" then entry_price + buffer else entry_price - buffer
    let remaining_contracts := signal.contracts * (signal.remaining_percent / 100)
    let partial_contracts := remaining_contracts * (1/2)
    let partial_pnl :=
      if signal.direction = "long" then (exit_price - entry_price) * partial_contracts
      else (entry_price - exit_price) * partial_contracts
    let signal := { signal with realized_pnl := signal.realized_pnl + partial_pnl,
                                remaining_percent := signal.remaining_percent * (1/2),
                                stop_loss := signal.original_stop_loss,
                                partial_protection_active := false }
    (signal,
     HitInfo.partial_protection_exit exit_price partial_pnl signal.remaining_percent
       signal.stop_loss)
  else
    let signal := { signal with stop_hit := true }
    let entry_price := signal.entry_price
    let stop_price := signal.stop_loss
    let remaining_contracts := signal.contracts * (signal.remaining_percent / 100)
    let loss :=
      if signal.direction = "long" then (stop_price - entry_price) * remaining_contracts
      else (entry_price - stop_price) * remaining_contracts
    let total_pnl := signal.realized_pnl + loss
    let signal := { signal with status := "stopped" }
    (signal, HitInfo.stop_hit stop_price loss total_pnl)

/-- SignalTracker.update_signal_price (signal_tracker.py:167-238): update
current and best price, then dispatch on stop loss, the ordered TP levels,
and near-TP reversal protection. -/
def update_signal_price (cfg : TrackerConfig) (signal : Signal) (current_price : ℚ) :
    Signal × Option HitInfo :=
  let signal := { signal with current_price := current_price }
  let signal :=
    if signal.direction = "long" then
      { signal with best_price := max signal.best_price current_price }
    else { signal with best_price := min signal.best_price current_price }
  let stop_loss := signal.stop_loss
  let tps := signal.take_profits
  if signal.direction = "long" then
    if current_price ≤ stop_loss ∧ ¬signal.stop_hit then
      let r := handle_stop_loss_hit cfg signal
      (r.1, some r.2)
    else if current_price ≥ tps.tp1.price ∧ ¬signal.tp1_hit then
      let r := handle_tp_hit signal "tp1"
      (r.1, some r.2)
    else if current_price ≥ tps.tp2.price ∧ ¬signal.tp2_hit ∧ signal.tp1_hit then
      let r := handle_tp_hit signal "tp2"
      (r.1, some r.2)
    else if current_price ≥ tps.tp3.price ∧ ¬signal.tp3_hit ∧ signal.tp2_hit then
      let r := handle_tp_hit signal "tp3"
      (r.1, some r.2)
    else if cfg.near_tp_enabled ∧ ¬signal.stop_hit then
      match check_near_tp_reversal cfg signal with
      | some r => (r.1, some r.2)
      | none => (signal, none)
    else (signal, none)
  else
    if current_price ≥ stop_loss ∧ ¬signal.stop_hit then
      let r := handle_stop_loss_hit cfg signal
      (r.1, some r.2)
    else if current_price ≤ tps.tp1.price ∧ ¬signal.tp1_hit then
      let r := handle_tp_hit signal "tp1"
      (r.1, some r.2)
    else if current_price ≤ tps.tp2.price ∧ ¬signal.tp2_hit ∧ signal.tp1_hit then
      let r := handle_tp_hit signal "tp2"
      (r.1, some r.2)
    else if current_price ≤ tps.tp3.price ∧ ¬signal.tp3_hit ∧ signal.tp2_hit then
      let r := handle_tp_hit signal "tp3"
      (r.1, some r.2)
    else if cfg.near_tp_enabled ∧ ¬signal.stop_hit then
      match check_near_tp_reversal cfg signal with
      | some r => (r.1, some r.2)
      | none => (signal, none)
    else (signal, none)

/-- SignalTracker.check_adaptive_stop_trigger (signal_tracker.py:577-663).
Note the source compares the signal's direction against the upper-case
strings "LONG"/"SHORT" here, while signals are created with lower-case
"long"/"short"; the comparison is embedded verbatim. -/
def check_adaptive_stop_trigger (cfg : TrackerConfig) (signal : Signal)
    (current_price current_atr : ℚ) (current_regime : String) : Bool × Option ℚ × String :=
  if ¬cfg.adaptive_stop_enabled then (false, none, "")
  else if signal.adaptive_stop_triggered then (false, none, "already triggered")
  else
    let entry := signal.entry_price
    let original_stop := signal.original_stop_loss
    let stop_distance :=
      if signal.direction = "LONG" then entry - original_stop else original_stop - entry
    let profit_distance :=
      if signal.direction = "LONG" then current_price - entry else entry - current_price
    if stop_distance ≤ 0 then (false, none, "invalid stop distance")
    else
      let profit_r := profit_distance / stop_distance
      if profit_r < cfg.adaptive_stop_min_profit_r then (false, none, "profit below threshold")
      else
        let volSpike : Bool := decide (signal.entry_atr > 0 ∧
          current_atr > signal.entry_atr * cfg.adaptive_stop_volatility_spike)
        let regimeChange : Bool := decide (signal.entry_regime ∈ ["trending", "strong_trend"] ∧
          current_regime ∈ ["choppy", "ranging"])
        let trigger_reason :=
          if volSpike then (if regimeChange then "volatility spike + regime change"
                            else "volatility spike")
          else (if regimeChange then "regime change" else "")
        if trigger_reason = "" then (false, none, "no trigger conditions met")
        else
          let buffer := entry * cfg.adaptive_stop_breakeven_buffer
          if signal.direction = "LONG" then
            let new_stop := entry + buffer
            if new_stop ≤ signal.stop_loss then (false, none, "would widen stop")
            else (true, some new_stop, trigger_reason)
          else
            let new_stop := entry - buffer
            if new_stop ≥ signal.stop_loss then (false, none, "would widen stop")
            else (true, some new_stop, trigger_reason)

/-- The adaptive-stop application step of SignalBot._update_active_signal
(src/main.py:416-432): on a positive trigger the stop is moved, the
triggered flag set, and partial protection armed when configured. -/
def apply_adaptive_stop (cfg : TrackerConfig) (signal : Signal)
    (current_price current_atr : ℚ) (current_regime : String) : Signal :=
  match check_adaptive_stop_trigger cfg signal current_price current_atr current_regime with
  | (true, some new_stop, _) =>
    let signal := { signal with stop_loss := new_stop, adaptive_stop_triggered := true }
    if cfg.adaptive_stop_partial_protection then
      { signal with partial_protection_active := true }
    else signal
  | _ => signal

/-- One event of the live monitoring loop acting on a signal: either a
price update (SignalTracker.update_signal_price) or an adaptive-stop
check-and-apply with the externally supplied market context. -/
inductive TrackerEvent where
  | price (q : ℚ)
  | adaptive (current_price current_atr : ℚ) (current_regime : String)
deriving Repr, DecidableEq

/-- One live-loop step: closed signals have been removed from
active_signals, so only an "active" signal is updated. -/
def tracker_step (cfg : TrackerConfig) (signal : Signal) (e : TrackerEvent) : Signal :=
  if signal.status = "active" then
    match e with
    | .price q => (update_signal_price cfg signal q).1
    | .adaptive p a r => apply_adaptive_stop cfg signal p a r
  else signal

/-- Folding a sequence of live-loop events over a signal. -/
def tracker_run (cfg : TrackerConfig) (signal : Signal) (es : List TrackerEvent) : Signal :=
  es.foldl (tracker_step cfg) signal

end SignalTracker

/-- Concrete long position for the C1 witness. -/
def C1_pW : BacktestEngine.Position := {
  symbol := "BTCUSDT", direction := "long", entry_price := 100, stop_loss := 98,
  take_profits := ⟨⟨103, 50⟩, ⟨105, 30⟩, ⟨107, 20⟩⟩, contracts := 1,
  regime := "trending" }

/-- Concrete candle crossing both the stop (low 97 <= 98) and tp1
(high 103.5 >= 103) for the C1 witness. -/
def C1_cW : BacktestEngine.Candle := ⟨207/2, 97, 98⟩

/-- A quiet candle for the C3 witness. -/
def C3_c : BacktestEngine.Candle := ⟨1, 1, 1⟩

/-- C3 witness dataset one: a spike candle at timestamp 5, after T = 2. -/
def C3_d1 : BacktestEngine.SymbolData :=
  ⟨[(1, C3_c), (5, ⟨100, 100, 100⟩)], [(1, C3_c)], [(1, C3_c)]⟩

/-- C3 witness dataset two: a different spike at timestamp 7; both datasets
agree on all rows with timestamp at or before 2. -/
def C3_d2 : BacktestEngine.SymbolData :=
  ⟨[(1, C3_c), (7, ⟨200, 200, 200⟩)], [(1, C3_c)], [(1, C3_c)]⟩

/-- The multi-timeframe context both C3 witness datasets produce at T = 2. -/
def C3_m : BacktestEngine.MtfData := ⟨[(1, C3_c)], [(1, C3_c)], [(1, C3_c)]⟩

/-- Concrete backtest position for the C4 witness: tp1 already hit. -/
def C4_p : BacktestEngine.Position := {
  symbol := "BTCUSDT", direction := "long", entry_price := 100, stop_loss := 99,
  take_profits := ⟨⟨103, 50⟩, ⟨105, 30⟩, ⟨107, 20⟩⟩, contracts := 1, tp1_hit := true,
  remaining_percent := 50, regime := "trending" }

/-- Concrete live signal for the C4 witness: tp1 already hit. -/
def C4_s : SignalTracker.Signal := {
  symbol := "ETHUSDT", direction := "long", entry_price := 100, stop_loss := 99,
  original_stop_loss := 98, take_profits := ⟨⟨103, 50⟩, ⟨105, 30⟩, ⟨107, 20⟩⟩,
  contracts := 1, tp1_hit := true, remaining_percent := 50, current_price := 104,
  best_price := 104 }

/-- Clean initial risk-gate state for the C7 witness (day index 1, a
Tuesday). -/
def C7_s0 : RiskManager.RMState := {
  equity := 2000, daily_loss := 0, weekly_loss := 0, weekly_pnl := 0, daily_pnl := 0,
  consecutive_losses := 0, trading_enabled := true, cooldown_until := none,
  weekly_cooldown_until := none, last_reset_date := 1, last_weekly_reset := 1 }

/-- Live long signal on which the adaptive stop should fire per the claim:
up 0.5R (above the 0.4R minimum), ATR doubled (above the 1.6x spike
threshold), regime degraded from trending to choppy, not yet triggered. -/
def C8_sig : SignalTracker.Signal := {
  symbol := "BTCUSDT", direction := "long", entry_price := 100, stop_loss := 98,
  original_stop_loss := 98, take_profits := ⟨⟨103, 50⟩, ⟨105, 30⟩, ⟨107, 20⟩⟩,
  contracts := 1, current_price := 101, best_price := 101, entry_atr := 1,
  entry_regime := "trending" }

/-- The same position in the backtest engine's representation. -/
def C8_pos : BacktestEngine.Position := {
  symbol := "BTCUSDT", direction := "long", entry_price := 100, stop_loss := 98,
  take_profits := ⟨⟨103, 50⟩, ⟨105, 30⟩, ⟨107, 20⟩⟩, contracts := 1, entry_atr := 1,
  regime := "trending" }

namespace SignalTracker

/-- The TP level a hit-information value reports as filled, if any. -/
def fill_level : Option HitInfo → Option String
  | some (.tp_hit lvl _ _ _ _ _ _) => some lvl
  | _ => none

end SignalTracker

namespace PositionSizer

/-- The sizing accept/reject decision of BacktestEngine._create_position
(engine.py:547-556): the candidate is dropped exactly when
calculate_position_size returned the empty dict; no market-constraint
validation is performed on this path. -/
def bt_size_accepts (cfg : SizerConfig) (equity entry stop : ℚ)
    (available_margin : Option ℚ) : Bool :=
  (calculate_position_size cfg equity entry stop available_margin).isSome

/-- The sizing accept/reject decision of SignalBot._create_signal_with_score
(src/main.py:338-361): reject when the sizer returned nothing usable,
otherwise apply the BTC-regime contract adjustment (max(1, int(contracts
times mult)) when mult < 1; note the notional handed to validation is not
re-adjusted, as in the source) and reject when
PositionSizer.validate_position_size fails. -/
def live_size_accepts (cfg : SizerConfig) (equity entry stop : ℚ)
    (available_margin : Option ℚ) (btc_position_mult : ℚ) (mi : MarketInfo) : Bool :=
  match calculate_position_size cfg equity entry stop available_margin with
  | none => false
  | some r =>
    let contracts := if btc_position_mult < 1
      then ((max 1 (pyInt (r.contracts * btc_position_mult)) : ℤ) : ℚ)
      else r.contracts
    validate_position_size contracts r.notional_usd mi

end PositionSizer

namespace SignalTracker

/-- The total close_percent of the TP levels a signal has filled so far. -/
def filled_percent (s : Signal) : ℚ :=
  (if s.tp1_hit then s.take_profits.tp1.close_percent else 0) +
  (if s.tp2_hit then s.take_profits.tp2.close_percent else 0) +
  (if s.tp3_hit then s.take_profits.tp3.close_percent else 0)

end SignalTracker

def shortSig0 : SignalTracker.Signal := {
  symbol := "ETHUSDT", direction := "short", entry_price := 100, stop_loss := 104,
  original_stop_loss := 104, take_profits := ⟨⟨97, 50⟩, ⟨95, 30⟩, ⟨93, 20⟩⟩,
  contracts := 1, current_price := 100, best_price := 100, entry_atr := 1,
  entry_regime := "trending" }

def shortSig1 : SignalTracker.Signal := { shortSig0 with
  current_price := 193/2, best_price := 193/2, tp1_hit := true,
  realized_pnl := 7/4, remaining_percent := 50, stop_loss := 102 }

def shortSig2 : SignalTracker.Signal := { shortSig1 with
  stop_loss := 1997/20, adaptive_stop_triggered := true, partial_protection_active := true }

def shortSig3 : SignalTracker.Signal := { shortSig2 with
  current_price := 100, realized_pnl := 143/80, remaining_percent := 25,
  stop_loss := 104, partial_protection_active := false }

def shortSig4 : SignalTracker.Signal := { shortSig3 with
  current_price := 94, best_price := 94, tp2_hit := true, realized_pnl := 287/80,
  remaining_percent := -5, stop_loss := 100, status := "completed" }

def btShortPos : BacktestEngine.Position := {
  symbol := "ETHUSDT", direction := "short", entry_price := 100, stop_loss := 104,
  take_profits := ⟨⟨97, 50⟩, ⟨95, 30⟩, ⟨93, 20⟩⟩, contracts := 1, entry_atr := 1,
  regime := "trending" }

def noPPTrackerConfig : SignalTracker.TrackerConfig :=
  { SignalTracker.liveTrackerConfig with adaptive_stop_partial_protection := false }

/-!
Theorems.  Each claim of the specification is settled below; helper lemmas
about field preservation come first.
-/

namespace BacktestEngine

/-- The adaptive-stop phase only ever changes stop_loss and
adaptive_stop_triggered; every other field of the position survives. -/
theorem adaptive_phase_fields (cfg : BTConfig) (p : Position) (close : ℚ)
    (mtf : Option (ℚ × String)) :
    (adaptive_phase cfg p close mtf).direction = p.direction ∧
    (adaptive_phase cfg p close mtf).tp1_hit = p.tp1_hit ∧
    (adaptive_phase cfg p close mtf).tp2_hit = p.tp2_hit ∧
    (adaptive_phase cfg p close mtf).tp3_hit = p.tp3_hit ∧
    (adaptive_phase cfg p close mtf).remaining_percent = p.remaining_percent ∧
    (adaptive_phase cfg p close mtf).take_profits = p.take_profits ∧
    (adaptive_phase cfg p close mtf).entry_price = p.entry_price ∧
    (adaptive_phase cfg p close mtf).contracts = p.contracts := by
  unfold adaptive_phase
  split
  · cases mtf with
    | none => exact ⟨rfl, rfl, rfl, rfl, rfl, rfl, rfl, rfl⟩
    | some pr =>
      obtain ⟨a, r⟩ := pr
      rcases h : check_adaptive_stop_trigger cfg p close a r p.entry_atr with ⟨b, os, str⟩
      rcases b <;> rcases os <;> simp [h] <;> split <;>
        exact ⟨rfl, rfl, rfl, rfl, rfl, rfl, rfl, rfl⟩
  · exact ⟨rfl, rfl, rfl, rfl, rfl, rfl, rfl, rfl⟩

/-- Without multi-timeframe context the adaptive-stop phase is skipped. -/
theorem adaptive_phase_none (cfg : BTConfig) (p : Position) (close : ℚ) :
    adaptive_phase cfg p close none = p := by
  unfold adaptive_phase; split <;> rfl

end BacktestEngine

/-- C1: in conservative mode, whenever the evaluation of an open position
on a historical candle finds the candle crossing both the current
stop-loss (the stop in force after the adaptive phase) and an un-hit,
order-eligible take-profit trigger, the position is finalized with
exit_reason "stopped" at the stop price (adjusted by the configured
stop-loss slippage), and no take-profit fill is applied in that step: no
TP level is filled, the hit flags and the remaining percentage are
unchanged.  Both directions, mirrored. -/
theorem C1_conservative_collision_is_stopped
    (cfg : BacktestEngine.BTConfig) (p : BacktestEngine.Position)
    (c : BacktestEngine.Candle) (mtf : Option (ℚ × String))
    (hcons : cfg.conservative_mode = true) :
    (p.direction = "long" →
      c.low ≤ (BacktestEngine.adaptive_phase cfg p c.close mtf).stop_loss →
      ((p.tp1_hit = false ∧ p.take_profits.tp1.price ≤ c.high) ∨
       (p.tp2_hit = false ∧ p.tp1_hit = true ∧ p.take_profits.tp2.price ≤ c.high) ∨
       (p.tp3_hit = false ∧ p.tp2_hit = true ∧ p.take_profits.tp3.price ≤ c.high)) →
      (BacktestEngine.update_position cfg p c mtf).recorded =
        [("stopped", (BacktestEngine.adaptive_phase cfg p c.close mtf).stop_loss *
          (1 - cfg.stop_loss_slippage / 100))] ∧
      (BacktestEngine.update_position cfg p c mtf).tp_filled = none ∧
      (BacktestEngine.update_position cfg p c mtf).closed = true ∧
      (BacktestEngine.update_position cfg p c mtf).position.tp1_hit = p.tp1_hit ∧
      (BacktestEngine.update_position cfg p c mtf).position.tp2_hit = p.tp2_hit ∧
      (BacktestEngine.update_position cfg p c mtf).position.tp3_hit = p.tp3_hit ∧
      (BacktestEngine.update_position cfg p c mtf).position.remaining_percent =
        p.remaining_percent) ∧
    (p.direction = "short" →
      (BacktestEngine.adaptive_phase cfg p c.close mtf).stop_loss ≤ c.high →
      ((p.tp1_hit = false ∧ c.low ≤ p.take_profits.tp1.price) ∨
       (p.tp2_hit = false ∧ p.tp1_hit = true ∧ c.low ≤ p.take_profits.tp2.price) ∨
       (p.tp3_hit = false ∧ p.tp2_hit = true ∧ c.low ≤ p.take_profits.tp3.price)) →
      (BacktestEngine.update_position cfg p c mtf).recorded =
        [("stopped", (BacktestEngine.adaptive_phase cfg p c.close mtf).stop_loss *
          (1 + cfg.stop_loss_slippage / 100))] ∧
      (BacktestEngine.update_position cfg p c mtf).tp_filled = none ∧
      (BacktestEngine.update_position cfg p c mtf).closed = true ∧
      (BacktestEngine.update_position cfg p c mtf).position.tp1_hit = p.tp1_hit ∧
      (BacktestEngine.update_position cfg p c mtf).position.tp2_hit = p.tp2_hit ∧
      (BacktestEngine.update_position cfg p c mtf).position.tp3_hit = p.tp3_hit ∧
      (BacktestEngine.update_position cfg p c mtf).position.remaining_percent =
        p.remaining_percent) := by
  obtain ⟨hdir, h1, h2, h3, hrem, htps, hep, hct⟩ :=
    BacktestEngine.adaptive_phase_fields cfg p c.close mtf
  set p1 := BacktestEngine.adaptive_phase cfg p c.close mtf with hp1
  have f1 : p1.tp1_hit = p.tp1_hit := h1
  have f2 : p1.tp2_hit = p.tp2_hit := h2
  have f3 : p1.tp3_hit = p.tp3_hit := h3
  have frem : p1.remaining_percent = p.remaining_percent := hrem
  have ftps : p1.take_profits = p.take_profits := htps
  have fdir : p1.direction = p.direction := hdir
  constructor
  · intro hlong hsl htp
    have hd1 : p1.direction = "long" := by rw [fdir, hlong]
    have hsl1 : BacktestEngine.crossed_sl p1 c = true := by
      simp [BacktestEngine.crossed_sl, hd1, hsl]
    have htp1 : (BacktestEngine.crossed_tp1 p1 c || BacktestEngine.crossed_tp2 p1 c ||
        BacktestEngine.crossed_tp3 p1 c) = true := by
      rcases htp with ⟨ha, hb⟩ | ⟨ha, hb, hc⟩ | ⟨ha, hb, hc⟩
      · simp [BacktestEngine.crossed_tp1, hd1, ge_iff_le, f1, ftps, ha, hb]
      · simp [BacktestEngine.crossed_tp2, hd1, ge_iff_le, f1, f2, ftps, ha, hb, hc]
      · simp [BacktestEngine.crossed_tp3, hd1, ge_iff_le, f2, f3, ftps, ha, hb, hc]
    unfold BacktestEngine.update_position BacktestEngine.hit_phase
    rw [← hp1]
    simp only [hcons, hsl1, htp1, Bool.and_self, Bool.true_and, Bool.and_true, if_true]
    simp [BacktestEngine.close_position, hd1, f1, f2, f3, frem]
  · intro hshort hsl htp
    have hd1 : p1.direction = "short" := by rw [fdir, hshort]
    have hd1' : ¬(p1.direction = "long") := by rw [hd1]; decide
    have hsl1 : BacktestEngine.crossed_sl p1 c = true := by
      simp [BacktestEngine.crossed_sl, if_neg hd1', ge_iff_le, hsl]
    have htp1 : (BacktestEngine.crossed_tp1 p1 c || BacktestEngine.crossed_tp2 p1 c ||
        BacktestEngine.crossed_tp3 p1 c) = true := by
      rcases htp with ⟨ha, hb⟩ | ⟨ha, hb, hc⟩ | ⟨ha, hb, hc⟩
      · simp [BacktestEngine.crossed_tp1, if_neg hd1', ge_iff_le, f1, ftps, ha, hb]
      · simp [BacktestEngine.crossed_tp2, if_neg hd1', ge_iff_le, f1, f2, ftps, ha, hb, hc]
      · simp [BacktestEngine.crossed_tp3, if_neg hd1', ge_iff_le, f2, f3, ftps, ha, hb, hc]
    unfold BacktestEngine.update_position BacktestEngine.hit_phase
    rw [← hp1]
    simp only [hcons, hsl1, htp1, Bool.and_self, Bool.true_and, Bool.and_true, if_true]
    simp [BacktestEngine.close_position, if_neg hd1', f1, f2, f3, frem]

/-- C1 witness: on a candle crossing both stop and tp1 the concrete
position is stopped out at 98 less 0.1% slippage, with no TP fill. -/
theorem C1_conservative_collision_is_stopped_witness :
    (BacktestEngine.update_position BacktestEngine.backtestConfig C1_pW C1_cW none).recorded =
      [("stopped", 48951/500)] ∧
    (BacktestEngine.update_position BacktestEngine.backtestConfig C1_pW C1_cW none).tp_filled =
      none ∧
    (BacktestEngine.update_position BacktestEngine.backtestConfig C1_pW C1_cW
      none).position.remaining_percent = 100 := by
  have hap : BacktestEngine.adaptive_phase BacktestEngine.backtestConfig C1_pW C1_cW.close
      none = C1_pW := BacktestEngine.adaptive_phase_none _ _ _
  have h := (C1_conservative_collision_is_stopped BacktestEngine.backtestConfig C1_pW C1_cW
    none rfl).1 rfl (by rw [hap]; norm_num [C1_pW, C1_cW])
    (Or.inl ⟨rfl, by norm_num [C1_pW, C1_cW]⟩)
  obtain ⟨hr, htf, _, _, _, _, hrem⟩ := h
  refine ⟨?_, htf, ?_⟩
  · rw [hr, hap]; norm_num [C1_pW, BacktestEngine.backtestConfig]
  · rw [hrem]; norm_num [C1_pW]

/-- C3: the multi-timeframe data the backtest hands to indicator
computation, regime detection, entry evaluation and scoring contains only
rows with timestamp at or before the backtest timestamp T, and any
decision computed from it (the entire downstream pipeline is a function of
this data) is identical for two datasets that agree on the rows with
timestamp at or before T — rows strictly after T cannot influence it. -/
theorem C3_no_lookahead (d : BacktestEngine.SymbolData) (T : ℚ) :
    (∀ m, BacktestEngine.get_mtf_data d T = some m →
      (∀ r ∈ m.htf, r.1 ≤ T) ∧ (∀ r ∈ m.primary, r.1 ≤ T) ∧ (∀ r ∈ m.entry, r.1 ≤ T)) ∧
    (∀ d2 : BacktestEngine.SymbolData,
      BacktestEngine.sliceLE T d.htf = BacktestEngine.sliceLE T d2.htf →
      BacktestEngine.sliceLE T d.primary = BacktestEngine.sliceLE T d2.primary →
      BacktestEngine.sliceLE T d.entry = BacktestEngine.sliceLE T d2.entry →
      ∀ (β : Type) (decision : Option BacktestEngine.MtfData → β),
        decision (BacktestEngine.get_mtf_data d T) =
          decision (BacktestEngine.get_mtf_data d2 T)) := by
  constructor
  · intro m hm
    have key : ∀ s : BacktestEngine.Series,
        ∀ r ∈ BacktestEngine.tailN 200 (BacktestEngine.sliceLE T s), r.1 ≤ T := by
      intro s r hr
      have hr2 : r ∈ BacktestEngine.sliceLE T s := List.drop_subset _ _ hr
      have := List.of_mem_filter hr2
      exact of_decide_eq_true this
    simp only [BacktestEngine.get_mtf_data] at hm
    split at hm
    · exact Option.noConfusion hm
    · rw [Option.some.injEq] at hm
      subst hm
      dsimp only
      exact ⟨key d.htf, key d.primary, key d.entry⟩
  · intro d2 hh hp he β decision
    unfold BacktestEngine.get_mtf_data
    rw [hh, hp, he]

/-- C3 witness: at T = 2 the sliced context of the concrete dataset holds
only rows with timestamp at most 2, and the two datasets, differing only in
their post-T spike, give the identical context to every decision. -/
theorem C3_no_lookahead_witness :
    (∀ r ∈ C3_m.htf, r.1 ≤ (2 : ℚ)) ∧
    BacktestEngine.get_mtf_data C3_d1 2 = BacktestEngine.get_mtf_data C3_d2 2 := by
  have h := C3_no_lookahead C3_d1 2
  refine ⟨(h.1 C3_m (by rfl)).1, ?_⟩
  simpa using h.2 C3_d2 (by rfl) (by rfl) (by rfl) _ id

namespace BacktestEngine

/-- In one candle's hit phase, a tp2 fill is only applied when tp1's hit
flag was already set at candle start, and a tp3 fill only when tp2's was;
the crossing flags tp2/tp3 are gated by the prior level's stored flag. -/
theorem hit_phase_tp_order (cfg : BTConfig) (p : Position) (c : Candle) :
    ((hit_phase cfg p c).tp_filled = some "tp2" → p.tp1_hit = true) ∧
    ((hit_phase cfg p c).tp_filled = some "tp3" → p.tp2_hit = true) := by
  have key : ∀ lvl, (hit_phase cfg p c).tp_filled = some lvl →
      (tp_chain cfg p (crossed_tp1 p c) (crossed_tp2 p c) (crossed_tp3 p c)).2.1 = some lvl := by
    intro lvl h
    unfold hit_phase at h
    rcases heq2 : tp_chain cfg p (crossed_tp1 p c) (crossed_tp2 p c) (crossed_tp3 p c)
      with ⟨p1, tpf, closed1, rec1⟩
    rw [heq2] at h
    by_cases hc1 : (cfg.conservative_mode && crossed_sl p c &&
        (crossed_tp1 p c || crossed_tp2 p c || crossed_tp3 p c)) = true
    · rw [if_pos hc1] at h
      simp at h
    · rw [if_neg hc1] at h
      dsimp only at h
      by_cases hc2 : (crossed_sl p c && !closed1) = true
      · rw [if_pos hc2] at h
        simpa using h
      · rw [if_neg hc2] at h
        simpa using h
  constructor
  · intro h
    have h2 := key _ h
    unfold tp_chain at h2
    split at h2
    · simp at h2
    · split at h2
      · rename_i ht2
        simp [crossed_tp2] at ht2
        tauto
      · split at h2
        · simp at h2
        · simp at h2
  · intro h
    have h2 := key _ h
    unfold tp_chain at h2
    split at h2
    · rename_i ht3
      simp [crossed_tp3] at ht3
      tauto
    · split at h2
      · simp at h2
      · split at h2
        · simp at h2
        · simp at h2

end BacktestEngine

namespace SignalTracker

/-- A TP handler reports exactly its level as filled. -/
theorem fill_level_handle (s : Signal) (lvl : String) :
    fill_level (some (handle_tp_hit s lvl).2) = some lvl := rfl

/-- A stop-loss handler never reports a TP fill. -/
theorem fill_level_stop (cfg : TrackerConfig) (s : Signal) :
    fill_level (some (handle_stop_loss_hit cfg s).2) = none := by
  unfold handle_stop_loss_hit
  split <;> rfl

/-- Near-TP reversal protection fires the next un-hit TP level in order:
tp1 first, tp2 only once tp1 is set, tp3 only once tp2 is set. -/
theorem next_tp_level_cases (s : Signal) (lvl : String)
    (hn : next_tp_level s = some lvl) :
    lvl = "tp1" ∨ (lvl = "tp2" ∧ s.tp1_hit = true) ∨ (lvl = "tp3" ∧ s.tp2_hit = true) := by
  unfold next_tp_level at hn
  repeat' split at hn
  all_goals simp_all

/-- Near-TP reversal protection fires the next un-hit TP level in order:
tp1 first, tp2 only once tp1 is set, tp3 only once tp2 is set. -/
theorem near_tp_order (cfg : TrackerConfig) (s : Signal) (r : Signal × HitInfo)
    (hr : check_near_tp_reversal cfg s = some r) :
    ∃ lvl, r = handle_tp_hit s lvl ∧
      (lvl = "tp1" ∨ (lvl = "tp2" ∧ s.tp1_hit = true) ∨ (lvl = "tp3" ∧ s.tp2_hit = true)) := by
  unfold check_near_tp_reversal at hr
  rcases hn : next_tp_level s with _ | lvl
  · rw [hn] at hr
    exact Option.noConfusion hr
  · rw [hn] at hr
    dsimp only at hr
    repeat' split at hr
    all_goals first
      | exact Option.noConfusion hr
      | exact ⟨lvl, (Option.some.inj hr).symm, next_tp_level_cases s lvl hn⟩

end SignalTracker

namespace SignalTracker

/-- In one live price update, a tp2 fill is only reported when tp1's hit
flag was already set before the call, and a tp3 fill only when tp2's was;
this covers the ordered TP dispatch and the near-TP early exit. -/
theorem update_signal_tp_order (cfg : TrackerConfig) (s : Signal) (q : ℚ) :
    (fill_level (update_signal_price cfg s q).2 = some "tp2" → s.tp1_hit = true) ∧
    (fill_level (update_signal_price cfg s q).2 = some "tp3" → s.tp2_hit = true) := by
  constructor <;>
  · intro h
    unfold update_signal_price at h
    dsimp only at h
    repeat' split at h
    all_goals
      first
      | exact Option.noConfusion h
      | (rename_i r heq
         obtain ⟨lvl, hrw, hor⟩ := near_tp_order _ _ _ heq
         subst hrw
         rw [fill_level_handle] at h
         obtain rfl := Option.some.inj h
         rcases hor with h1 | ⟨_, h2⟩ | ⟨h3, h4⟩ <;> simp_all)
      | simp_all [fill_level_handle, fill_level_stop]

end SignalTracker

/-- C4: take-profit levels fire strictly in order.  In the backtest
engine's per-candle update a tp2 fill is applied only when tp1's hit flag
was already set at the start of the step and a tp3 fill only when tp2's
was (the adaptive phase never touches the flags); in the live tracker's
per-price update the same holds for the reported fill, including the
near-TP early-exit path. -/
theorem C4_tp_levels_fire_in_order :
    (∀ (cfg : BacktestEngine.BTConfig) (p : BacktestEngine.Position)
       (c : BacktestEngine.Candle) (mtf : Option (ℚ × String)),
      ((BacktestEngine.update_position cfg p c mtf).tp_filled = some "tp2" →
        p.tp1_hit = true) ∧
      ((BacktestEngine.update_position cfg p c mtf).tp_filled = some "tp3" →
        p.tp2_hit = true)) ∧
    (∀ (cfg : SignalTracker.TrackerConfig) (s : SignalTracker.Signal) (q : ℚ),
      (SignalTracker.fill_level (SignalTracker.update_signal_price cfg s q).2 = some "tp2" →
        s.tp1_hit = true) ∧
      (SignalTracker.fill_level (SignalTracker.update_signal_price cfg s q).2 = some "tp3" →
        s.tp2_hit = true)) := by
  constructor
  · intro cfg p c mtf
    obtain ⟨hdir, h1, h2, h3, hrem, htps, hep, hct⟩ :=
      BacktestEngine.adaptive_phase_fields cfg p c.close mtf
    have ho := BacktestEngine.hit_phase_tp_order cfg
      (BacktestEngine.adaptive_phase cfg p c.close mtf) c
    exact ⟨fun hf => h1 ▸ ho.1 hf, fun hf => h2 ▸ ho.2 hf⟩
  · exact SignalTracker.update_signal_tp_order

/-- C4 witness: both conjuncts of the theorem applied at concrete inputs
on which a tp2 fill actually happens. -/
theorem C4_tp_levels_fire_in_order_witness :
    ((BacktestEngine.update_position BacktestEngine.backtestConfig C4_p
        ⟨106, 101, 105⟩ none).tp_filled = some "tp2" → C4_p.tp1_hit = true) ∧
    (SignalTracker.fill_level (SignalTracker.update_signal_price
        SignalTracker.liveTrackerConfig C4_s 105).2 = some "tp2" → C4_s.tp1_hit = true) ∧
    (BacktestEngine.update_position BacktestEngine.backtestConfig C4_p
        ⟨106, 101, 105⟩ none).tp_filled = some "tp2" ∧
    SignalTracker.fill_level (SignalTracker.update_signal_price
        SignalTracker.liveTrackerConfig C4_s 105).2 = some "tp2" := by
  refine ⟨(C4_tp_levels_fire_in_order.1 _ _ _ _).1, (C4_tp_levels_fire_in_order.2 _ _ _).1,
    ?_, ?_⟩
  · norm_num [BacktestEngine.update_position, BacktestEngine.adaptive_phase_none,
      BacktestEngine.hit_phase, BacktestEngine.crossed_sl, BacktestEngine.crossed_tp1,
      BacktestEngine.crossed_tp2, BacktestEngine.crossed_tp3, BacktestEngine.tp_chain,
      BacktestEngine.handle_tp_hit, BacktestEngine.backtestConfig, C4_p, tpLevelOf]
  · norm_num [SignalTracker.update_signal_price, SignalTracker.handle_tp_hit,
      SignalTracker.fill_level, SignalTracker.liveTrackerConfig, C4_s, tpLevelOf,
      SignalTracker.calculate_trailing_stop]

/-- C10: recording a trade with pnl exactly 0 is treated as a win for
streak purposes in both engines: the consecutive-loss counter is reset to
0 (never incremented) and the cooldown timer is left untouched, so no
cooldown is started by that call. -/
theorem C10_zero_pnl_treated_as_win :
    (∀ (cfg : RiskManager.RMConfig) (s : RiskManager.RMState) (t : ℚ),
      (RiskManager.record_trade cfg s 0 t).consecutive_losses = 0 ∧
      (RiskManager.record_trade cfg s 0 t).cooldown_until = s.cooldown_until) ∧
    (∀ (cfg : BacktestEngine.BTConfig) (n : ℕ) (cd : Option ℚ) (t : ℚ),
      BacktestEngine.record_trade_losses cfg n cd 0 t = (0, cd)) := by
  constructor
  · intro cfg s t
    unfold RiskManager.record_trade
    norm_num
  · intro cfg n cd t
    unfold BacktestEngine.record_trade_losses
    norm_num

namespace RiskManager

/-- Recording three consecutive losses from a clean streak: the counter
reaches 3 (the configured maximum) and a cooldown until t + 4 hours is
armed; nothing else of the gate state changes except the PnL accounting. -/
theorem record_three_losses (s0 : RMState) (p t : ℚ) (hp : p < 0)
    (hc0 : s0.consecutive_losses = 0) :
    record_trade liveRMConfig (record_trade liveRMConfig
        (record_trade liveRMConfig s0 p t) p t) p t = { s0 with
      equity := s0.equity + p + p + p, daily_pnl := s0.daily_pnl + p + p + p,
      weekly_pnl := s0.weekly_pnl + p + p + p, daily_loss := s0.daily_loss + p + p + p,
      weekly_loss := s0.weekly_loss + p + p + p, consecutive_losses := 3,
      cooldown_until := some (t + 4) } := by
  simp [record_trade, hp, hc0, liveRMConfig]

end RiskManager

/-- C7 counterexample: the claim fails on the code in two ways.  Trace A:
three losses of 45 dollars at hour 34 from 2000 dollars equity put the
weekly PnL at -135 (7.2 percent); at hour 38, after the 4-hour cooldown
has fully elapsed, can_trade() still returns false (weekly-loss limit),
refuting "the next can_trade() call returns true".  Trace B: three losses
of 10 dollars at hour 47 arm a cooldown until hour 51; a winning trade at
hour 47.5 resets the counter, and at hour 48.5 - crossing midnight, still
before the cooldown expiry at 51 - the daily reset clears the cooldown and
can_trade() returns true, refuting "cooldown expiry is the only way the
loss-streak halt ends". -/
theorem C7_cooldown_counterexample :
    (RiskManager.can_trade RiskManager.liveRMConfig
      (RiskManager.record_trade RiskManager.liveRMConfig
        (RiskManager.record_trade RiskManager.liveRMConfig
          (RiskManager.record_trade RiskManager.liveRMConfig
            { equity := 2000, daily_loss := 0, weekly_loss := 0, weekly_pnl := 0,
              daily_pnl := 0, consecutive_losses := 0, trading_enabled := true,
              cooldown_until := none, weekly_cooldown_until := none,
              last_reset_date := 1, last_weekly_reset := 1 }
            (-45) 34) (-45) 34) (-45) 34) 38).2.1 = false ∧
    (34 : ℚ) + 4 ≤ 38 ∧
    ((RiskManager.record_trade RiskManager.liveRMConfig
        (RiskManager.record_trade RiskManager.liveRMConfig
          (RiskManager.record_trade RiskManager.liveRMConfig
            (RiskManager.record_trade RiskManager.liveRMConfig
              { equity := 2000, daily_loss := 0, weekly_loss := 0, weekly_pnl := 0,
                daily_pnl := 0, consecutive_losses := 0, trading_enabled := true,
                cooldown_until := none, weekly_cooldown_until := none,
                last_reset_date := 1, last_weekly_reset := 1 }
              (-10) 47) (-10) 47) (-10) 47) 5 (95/2)).cooldown_until = some 51 ∧
     (97 : ℚ)/2 < 51 ∧
     (RiskManager.can_trade RiskManager.liveRMConfig
       (RiskManager.record_trade RiskManager.liveRMConfig
         (RiskManager.record_trade RiskManager.liveRMConfig
           (RiskManager.record_trade RiskManager.liveRMConfig
             (RiskManager.record_trade RiskManager.liveRMConfig
               { equity := 2000, daily_loss := 0, weekly_loss := 0, weekly_pnl := 0,
                 daily_pnl := 0, consecutive_losses := 0, trading_enabled := true,
                 cooldown_until := none, weekly_cooldown_until := none,
                 last_reset_date := 1, last_weekly_reset := 1 }
               (-10) 47) (-10) 47) (-10) 47) 5 (95/2)) (97/2)).2.1 = true) := by
  refine ⟨?_, by norm_num, ?_, by norm_num, ?_⟩
  · norm_num [RiskManager.can_trade, RiskManager.check_daily_reset,
      RiskManager.check_weekly_reset, RiskManager.can_trade_rest, RiskManager.can_trade_tail,
      RiskManager.record_trade, RiskManager.liveRMConfig, RiskManager.dateOf,
      RiskManager.isMonday]
    rw [show |(27:ℚ)/373| = 27/373 from abs_of_pos (by norm_num)]
    norm_num
  · norm_num [RiskManager.record_trade, RiskManager.liveRMConfig]
  · norm_num [RiskManager.can_trade, RiskManager.check_daily_reset,
      RiskManager.check_weekly_reset, RiskManager.can_trade_rest, RiskManager.can_trade_tail,
      RiskManager.record_trade, RiskManager.liveRMConfig, RiskManager.dateOf,
      RiskManager.isMonday]
    rw [show |(6:ℚ)/395| = 6/395 from abs_of_pos (by norm_num)]
    norm_num
    rw [show |(1:ℚ)/79| = 1/79 from abs_of_pos (by norm_num)]
    norm_num

/-- C7 (amended): after 3 consecutive losing record_trade calls (3 being
the configured maximum) from a clean streak, the gate holds a cooldown of
4 hours and can_trade() returns false before it elapses; once the cooldown
has elapsed, the next can_trade() call returns true with the
consecutive-loss counter reset to 0, provided no daily or weekly boundary
reset intervenes at either call and the weekly-loss limit is not breached
by the three losses.  Cooldown expiry is not the only way the halt ends:
a daily reset also clears the cooldown early (see the counterexample). -/
theorem C7_cooldown_amended (s0 : RiskManager.RMState) (p t t1 t2 : ℚ)
    (hp : p < 0)
    (hc0 : s0.consecutive_losses = 0)
    (hcd : s0.cooldown_until = none)
    (hwcd : s0.weekly_cooldown_until = none)
    (hd1 : RiskManager.dateOf t1 = s0.last_reset_date)
    (hm1 : ¬(RiskManager.isMonday (RiskManager.dateOf t1) = true ∧
      RiskManager.dateOf t1 > s0.last_weekly_reset))
    (ht1 : t1 < t + 4)
    (hd2 : RiskManager.dateOf t2 = s0.last_reset_date)
    (hm2 : ¬(RiskManager.isMonday (RiskManager.dateOf t2) = true ∧
      RiskManager.dateOf t2 > s0.last_weekly_reset))
    (ht2 : t + 4 ≤ t2)
    (hweek : ¬(s0.weekly_pnl + p + p + p < 0 ∧
      RiskManager.liveRMConfig.max_weekly_loss ≤
        |(s0.weekly_pnl + p + p + p) / (s0.equity + p + p + p)|)) :
    (RiskManager.record_trade RiskManager.liveRMConfig
      (RiskManager.record_trade RiskManager.liveRMConfig
        (RiskManager.record_trade RiskManager.liveRMConfig
          s0 p t) p t) p t).consecutive_losses = 3 ∧
    (RiskManager.record_trade RiskManager.liveRMConfig
      (RiskManager.record_trade RiskManager.liveRMConfig
        (RiskManager.record_trade RiskManager.liveRMConfig
          s0 p t) p t) p t).cooldown_until = some (t + 4) ∧
    (RiskManager.can_trade RiskManager.liveRMConfig
      (RiskManager.record_trade RiskManager.liveRMConfig
        (RiskManager.record_trade RiskManager.liveRMConfig
          (RiskManager.record_trade RiskManager.liveRMConfig
            s0 p t) p t) p t) t1).2.1 = false ∧
    (RiskManager.can_trade RiskManager.liveRMConfig
      (RiskManager.record_trade RiskManager.liveRMConfig
        (RiskManager.record_trade RiskManager.liveRMConfig
          (RiskManager.record_trade RiskManager.liveRMConfig
            s0 p t) p t) p t) t2).2.1 = true ∧
    ((RiskManager.can_trade RiskManager.liveRMConfig
      (RiskManager.record_trade RiskManager.liveRMConfig
        (RiskManager.record_trade RiskManager.liveRMConfig
          (RiskManager.record_trade RiskManager.liveRMConfig
            s0 p t) p t) p t) t2).1).consecutive_losses = 0 := by
  rw [RiskManager.record_three_losses s0 p t hp hc0]
  rw [hd1] at hm1
  rw [hd2] at hm2
  refine ⟨rfl, rfl, ?_, ?_, ?_⟩
  · simp [RiskManager.can_trade, RiskManager.check_daily_reset,
      RiskManager.check_weekly_reset, hd1, hm1, ht1]
  · have hnt : ¬(t2 < t + 4) := not_lt.mpr ht2
    simp [RiskManager.can_trade, RiskManager.check_daily_reset,
      RiskManager.check_weekly_reset, RiskManager.can_trade_rest,
      RiskManager.can_trade_tail, hd2, hm2, hnt, hwcd, RiskManager.liveRMConfig]
    rw [if_neg (fun hcond => hweek ⟨hcond.1, hcond.2⟩)]
  · have hnt : ¬(t2 < t + 4) := not_lt.mpr ht2
    simp [RiskManager.can_trade, RiskManager.check_daily_reset,
      RiskManager.check_weekly_reset, RiskManager.can_trade_rest,
      RiskManager.can_trade_tail, hd2, hm2, hnt, hwcd, RiskManager.liveRMConfig]
    rw [if_neg (fun hcond => hweek ⟨hcond.1, hcond.2⟩)]

/-- C7 witness: three 10-dollar losses at hour 34 put the gate in cooldown
until hour 38; can_trade() is false at hour 35 and true at hour 38 with
the counter back at 0. -/
theorem C7_cooldown_amended_witness :
    (RiskManager.record_trade RiskManager.liveRMConfig
      (RiskManager.record_trade RiskManager.liveRMConfig
        (RiskManager.record_trade RiskManager.liveRMConfig
          C7_s0 (-10) 34) (-10) 34) (-10) 34).consecutive_losses = 3 ∧
    (RiskManager.record_trade RiskManager.liveRMConfig
      (RiskManager.record_trade RiskManager.liveRMConfig
        (RiskManager.record_trade RiskManager.liveRMConfig
          C7_s0 (-10) 34) (-10) 34) (-10) 34).cooldown_until = some 38 ∧
    (RiskManager.can_trade RiskManager.liveRMConfig
      (RiskManager.record_trade RiskManager.liveRMConfig
        (RiskManager.record_trade RiskManager.liveRMConfig
          (RiskManager.record_trade RiskManager.liveRMConfig
            C7_s0 (-10) 34) (-10) 34) (-10) 34) 35).2.1 = false ∧
    (RiskManager.can_trade RiskManager.liveRMConfig
      (RiskManager.record_trade RiskManager.liveRMConfig
        (RiskManager.record_trade RiskManager.liveRMConfig
          (RiskManager.record_trade RiskManager.liveRMConfig
            C7_s0 (-10) 34) (-10) 34) (-10) 34) 38).2.1 = true ∧
    ((RiskManager.can_trade RiskManager.liveRMConfig
      (RiskManager.record_trade RiskManager.liveRMConfig
        (RiskManager.record_trade RiskManager.liveRMConfig
          (RiskManager.record_trade RiskManager.liveRMConfig
            C7_s0 (-10) 34) (-10) 34) (-10) 34) 38).1).consecutive_losses = 0 := by
  have h := C7_cooldown_amended C7_s0 (-10) 34 35 38 (by norm_num) rfl rfl rfl
    (by norm_num [RiskManager.dateOf, C7_s0])
    (by norm_num [RiskManager.dateOf, RiskManager.isMonday, C7_s0])
    (by norm_num)
    (by norm_num [RiskManager.dateOf, C7_s0])
    (by norm_num [RiskManager.dateOf, RiskManager.isMonday, C7_s0])
    (by norm_num)
    (by
      rintro ⟨h1, h2⟩
      rw [show (C7_s0.weekly_pnl + -10 + -10 + -10) / (C7_s0.equity + -10 + -10 + -10)
        = -(3/197) by norm_num [C7_s0]] at h2
      rw [abs_neg, abs_of_pos (by norm_num : (0:ℚ) < 3/197)] at h2
      norm_num [RiskManager.liveRMConfig] at h2)
  exact ⟨h.1, h.2.1.trans (by norm_num), h.2.2.1, h.2.2.2.1, h.2.2.2.2⟩

/-- C6 counterexample: with equity 2000, entry 1000, stop 999 (0.1 percent
stop distance, leverage 11) and available margin 1000, the initial margin
requirement 20000/11 exceeds the available margin, so a resize occurs -
yet the returned margin_used is 800 (the 40-percent-of-equity cap branch
raised leverage to 13.75), not the available margin 1000; the claim's
"margin_used equals available_margin" fails. -/
theorem C6_margin_resize_counterexample :
    PositionSizer.calculate_position_size PositionSizer.liveSizerConfig 2000 1000 999
      (some 1000) = some { contracts := 11, notional_usd := 11000, leverage := 55/4,
                           risk_usd := 11, margin_used := 800, margin_percent := 40,
                           stop_distance_pct := 1/10, stop_distance_usd := 11 } ∧
    2000 * PositionSizer.liveSizerConfig.risk_per_trade / (|(1000:ℚ) - 999| / 1000) /
      PositionSizer.determine_leverage_for_stop (|(1000:ℚ) - 999| / 1000) > 1000 ∧
    (800 : ℚ) ≠ 1000 := by
  refine ⟨?_, ?_, by norm_num⟩
  · norm_num [PositionSizer.calculate_position_size, PositionSizer.determine_leverage_for_stop,
      PositionSizer.liveSizerConfig, pyRound, pyRoundInt]
  · norm_num [PositionSizer.determine_leverage_for_stop, PositionSizer.liveSizerConfig]

open PositionSizer in
/-- C6 (amended): when no margin resize occurs (no margin bound, or the
initial margin requirement fits the available margin), the returned
risk_usd is exactly the rounded equity x risk fraction.  When the initial
margin requirement exceeds the available margin a, the notional is resized
to a times the unchanged leverage, the realized (pre-rounding) risk
a x leverage x stop-distance is strictly below equity x risk fraction, and
the returned risk_usd is its rounding; margin_used equals (the rounding
of) a provided the post-resize margin stays at or below 40 percent of
equity - otherwise the over-40-percent branch raises the leverage and
margin_used drops below a (see the counterexample).  A zero equity is
excluded: there the program raises ZeroDivisionError into its handler and
returns the empty dict instead of any risk_usd. -/
theorem C6_sizing_risk_target_amended (cfg : SizerConfig) (equity entry stop a : ℚ)
    (hentry : 0 < entry) (heqz : equity ≠ 0) (hsd : |entry - stop| / entry ≠ 0)
    (hml : 0 < cfg.max_leverage) :
    ((calculate_position_size cfg equity entry stop none).map (fun r => r.risk_usd)
       = some (pyRound (equity * cfg.risk_per_trade) 2)) ∧
    (equity * cfg.risk_per_trade / (|entry - stop| / entry) /
        (if determine_leverage_for_stop (|entry - stop| / entry) > cfg.max_leverage
         then cfg.max_leverage
         else determine_leverage_for_stop (|entry - stop| / entry)) ≤ a →
      (calculate_position_size cfg equity entry stop (some a)).map (fun r => r.risk_usd)
        = some (pyRound (equity * cfg.risk_per_trade) 2)) ∧
    (a < equity * cfg.risk_per_trade / (|entry - stop| / entry) /
        (if determine_leverage_for_stop (|entry - stop| / entry) > cfg.max_leverage
         then cfg.max_leverage
         else determine_leverage_for_stop (|entry - stop| / entry)) →
      a / equity * 100 ≤ 40 →
      a * ((if determine_leverage_for_stop (|entry - stop| / entry) > cfg.max_leverage
            then cfg.max_leverage
            else determine_leverage_for_stop (|entry - stop| / entry)) *
        (|entry - stop| / entry)) < equity * cfg.risk_per_trade ∧
      (calculate_position_size cfg equity entry stop (some a)).map (fun r => r.risk_usd)
        = some (pyRound (a * (if determine_leverage_for_stop (|entry - stop| / entry) >
            cfg.max_leverage then cfg.max_leverage
            else determine_leverage_for_stop (|entry - stop| / entry)) *
          (|entry - stop| / entry)) 2) ∧
      (calculate_position_size cfg equity entry stop (some a)).map (fun r => r.margin_used)
        = some (pyRound a 2)) := by
  have hsdpos : 0 < |entry - stop| / entry := by
    rcases lt_or_eq_of_le (div_nonneg (abs_nonneg _) hentry.le) with h | h
    · exact h
    · exact absurd h.symm hsd
  have hdet : 0 < determine_leverage_for_stop (|entry - stop| / entry) := by
    dsimp only [determine_leverage_for_stop]
    repeat' split
    all_goals norm_num
  have hlev : 0 < (if determine_leverage_for_stop (|entry - stop| / entry) > cfg.max_leverage
      then cfg.max_leverage else determine_leverage_for_stop (|entry - stop| / entry)) := by
    split
    · exact hml
    · exact hdet
  refine ⟨?_, ?_, ?_⟩
  · simp [calculate_position_size, hsd, heqz]
  · intro hle
    have hres : ¬(equity * cfg.risk_per_trade / (|entry - stop| / entry) /
        (if determine_leverage_for_stop (|entry - stop| / entry) > cfg.max_leverage
         then cfg.max_leverage
         else determine_leverage_for_stop (|entry - stop| / entry)) > a) := not_lt.mpr hle
    simp [calculate_position_size, hsd, heqz, hres]
  · intro hgt h40
    have hres : equity * cfg.risk_per_trade / (|entry - stop| / entry) /
        (if determine_leverage_for_stop (|entry - stop| / entry) > cfg.max_leverage
         then cfg.max_leverage
         else determine_leverage_for_stop (|entry - stop| / entry)) > a := hgt
    have h40' : ¬(a / equity * 100 > 40) := not_lt.mpr h40
    refine ⟨?_, ?_, ?_⟩
    · have key : ∀ L S : ℚ, 0 < L → 0 < S →
          a < equity * cfg.risk_per_trade / S / L →
          a * (L * S) < equity * cfg.risk_per_trade := by
        intro L S hL hS hA
        have h2 := mul_lt_mul_of_pos_right hA (mul_pos hL hS)
        calc a * (L * S) < equity * cfg.risk_per_trade / S / L * (L * S) := h2
          _ = equity * cfg.risk_per_trade := by
            field_simp
            exact Or.inl (mul_comm L S)
      exact key _ _ hlev hsdpos hgt
    · simp [calculate_position_size, hsd, heqz, hres, h40']
    · simp [calculate_position_size, hsd, heqz, hres, h40']

/-- C6 witness: with equity 2000, entry 100, stop 98 and no margin bound
the risk_usd is exactly 20 = 2000 x 1 percent; with available margin 50
(below the 1000/7 requirement) the position is resized at the unchanged
leverage 7: risk_usd becomes 7 < 20 and margin_used equals the available
margin 50. -/
theorem C6_sizing_risk_target_amended_witness :
    (PositionSizer.calculate_position_size PositionSizer.liveSizerConfig 2000 100 98
      none).map (fun r => r.risk_usd) = some 20 ∧
    (PositionSizer.calculate_position_size PositionSizer.liveSizerConfig 2000 100 98
      (some 50)).map (fun r => r.risk_usd) = some 7 ∧
    (PositionSizer.calculate_position_size PositionSizer.liveSizerConfig 2000 100 98
      (some 50)).map (fun r => r.margin_used) = some 50 ∧
    (7 : ℚ) < 20 := by
  have h := C6_sizing_risk_target_amended PositionSizer.liveSizerConfig 2000 100 98 50
    (by norm_num) (by norm_num) (by norm_num)
    (by norm_num [PositionSizer.liveSizerConfig])
  have h3 := h.2.2
    (by norm_num [PositionSizer.determine_leverage_for_stop, PositionSizer.liveSizerConfig])
    (by norm_num)
  refine ⟨?_, ?_, ?_, by norm_num⟩
  · exact h.1.trans (by norm_num [pyRound, pyRoundInt, PositionSizer.liveSizerConfig])
  · exact h3.2.1.trans (by norm_num [pyRound, pyRoundInt, PositionSizer.liveSizerConfig,
      PositionSizer.determine_leverage_for_stop])
  · exact h3.2.2.trans (by norm_num [pyRound, pyRoundInt])



/-- C9 counterexample: a candidate with a 2-percent stop distance (nonzero)
whose one contract is above the exchange minimum 0 is nonetheless rejected
by the live path, because the exchange maximum order size 0.5 is exceeded;
the claim's "exactly when the stop distance fraction is zero or the
contracts are below the exchange minimum" is therefore false. -/
theorem C9_rejection_counterexample :
    PositionSizer.live_size_accepts PositionSizer.liveSizerConfig 2000 1000 980 none 1
      ⟨some 0, some (1/2), some 0⟩ = false ∧
    |(1000 : ℚ) - 980| / 1000 ≠ 0 ∧
    (PositionSizer.calculate_position_size PositionSizer.liveSizerConfig 2000 1000 980
      none).map (fun r => r.contracts) = some 1 ∧
    ¬((1 : ℚ) < 0) := by
  refine ⟨?_, by norm_num, ?_, by norm_num⟩
  · norm_num [PositionSizer.live_size_accepts, PositionSizer.calculate_position_size,
      PositionSizer.determine_leverage_for_stop, PositionSizer.liveSizerConfig,
      PositionSizer.validate_position_size, pyRound, pyRoundInt]
  · norm_num [PositionSizer.calculate_position_size,
      PositionSizer.determine_leverage_for_stop, PositionSizer.liveSizerConfig,
      pyRound, pyRoundInt]

/-- C9 (amended): the backtest path rejects a candidate exactly when the
stop distance fraction is zero or the account equity is zero (the caught
ZeroDivisionError path); no market-constraint check exists there.  The
live path rejects exactly when the sizer returned nothing (same two
causes) or validation fails, and validation fails exactly when the
contracts fall below the (falsy-defaulted) exchange minimum, exceed a
nonzero exchange maximum, or the notional falls below the
(falsy-defaulted) exchange minimum notional - more rejection causes than
the claim lists. -/
theorem C9_rejection_amended :
    (∀ (cfg : PositionSizer.SizerConfig) (e en st : ℚ) (m : Option ℚ),
      PositionSizer.bt_size_accepts cfg e en st m = true ↔
        (|en - st| / en ≠ 0 ∧ e ≠ 0)) ∧
    (∀ (c n : ℚ) (mi : PositionSizer.MarketInfo),
      PositionSizer.validate_position_size c n mi = false ↔
        (c < (if mi.min_order_size.getD 0 = 0 then 0 else mi.min_order_size.getD 0) ∨
         (∃ mx, mi.max_order_size = some mx ∧ mx ≠ 0 ∧ mx < c) ∨
         n < (if mi.min_notional.getD 0 = 0 then 0 else mi.min_notional.getD 0))) ∧
    (∀ (cfg : PositionSizer.SizerConfig) (e en st : ℚ) (m : Option ℚ)
       (mi : PositionSizer.MarketInfo) (r : PositionSizer.SizeResult),
      PositionSizer.calculate_position_size cfg e en st m = some r →
      (PositionSizer.live_size_accepts cfg e en st m 1 mi = true ↔
        PositionSizer.validate_position_size r.contracts r.notional_usd mi = true)) ∧
    (∀ (cfg : PositionSizer.SizerConfig) (e en st : ℚ) (m : Option ℚ)
       (mi : PositionSizer.MarketInfo),
      PositionSizer.calculate_position_size cfg e en st m = none →
      PositionSizer.live_size_accepts cfg e en st m 1 mi = false) := by
  refine ⟨?_, ?_, ?_, ?_⟩
  · intro cfg e en st m
    by_cases hs : |en - st| / en = 0
    · simp [PositionSizer.bt_size_accepts, PositionSizer.calculate_position_size, hs]
    · by_cases he : e = 0
      · simp [PositionSizer.bt_size_accepts, PositionSizer.calculate_position_size, hs, he]
      · simp [PositionSizer.bt_size_accepts, PositionSizer.calculate_position_size, hs, he]
  · intro c n mi
    unfold PositionSizer.validate_position_size
    rcases hmx : mi.max_order_size with _ | mx <;>
      dsimp only <;>
      (repeat' split) <;>
      simp_all
  · intro cfg e en st m mi r hr
    unfold PositionSizer.live_size_accepts
    rw [hr]
    norm_num
  · intro cfg e en st m mi h
    unfold PositionSizer.live_size_accepts
    rw [h]

/-- C9 witness: the backtest path accepts a 2-percent-stop candidate and
rejects a zero-stop-distance one; the live path accepts the same candidate
when the market imposes no constraints; validation rejects one contract
against a minimum order size of 2. -/
theorem C9_rejection_amended_witness :
    PositionSizer.bt_size_accepts PositionSizer.liveSizerConfig 2000 100 98 none = true ∧
    PositionSizer.bt_size_accepts PositionSizer.liveSizerConfig 2000 100 100 none = false ∧
    PositionSizer.live_size_accepts PositionSizer.liveSizerConfig 2000 100 98 none 1
      ⟨none, none, none⟩ = true ∧
    PositionSizer.validate_position_size 1 1000 ⟨some 2, none, none⟩ = false := by
  obtain ⟨h1, h2, h3, h4⟩ := C9_rejection_amended
  refine ⟨(h1 _ 2000 100 98 none).mpr (by norm_num), ?_, ?_, ?_⟩
  · exact Bool.eq_false_iff.mpr
      (fun hacc => ((h1 _ 2000 100 100 none).mp hacc).1 (by norm_num))
  · have hr : PositionSizer.calculate_position_size PositionSizer.liveSizerConfig
        2000 100 98 none = some { contracts := 10, notional_usd := 1000, leverage := 7,
                                  risk_usd := 20, margin_used := 7143/50,
                                  margin_percent := 357/50, stop_distance_pct := 2,
                                  stop_distance_usd := 20 } := by
      norm_num [PositionSizer.calculate_position_size,
        PositionSizer.determine_leverage_for_stop, PositionSizer.liveSizerConfig,
        pyRound, pyRoundInt]
    exact (h3 _ 2000 100 98 none ⟨none, none, none⟩ _ hr).mpr
      (by norm_num [PositionSizer.validate_position_size])
  · exact (h2 1 1000 ⟨some 2, none, none⟩).mpr (Or.inl (by norm_num))

/-- C8: the claim states the intended behaviour, but the live tracker's
check_adaptive_stop_trigger compares the signal direction against the
upper-case string "LONG" while signals store "long", so every live long
position falls into the short branch, computes a negative stop distance
and returns "invalid stop distance" - the adaptive stop never fires for
live longs.  The backtest engine's mirror of the same function, comparing
against "long", triggers on the identical market data and moves the stop
to breakeven plus the 0.15 percent buffer (100.15). -/
theorem C8_adaptive_stop_long_never_fires_live :
    SignalTracker.check_adaptive_stop_trigger SignalTracker.liveTrackerConfig C8_sig
      101 2 "choppy" = (false, none, "invalid stop distance") ∧
    C8_sig.direction = "long" ∧
    (101 - C8_sig.entry_price) / (C8_sig.entry_price - C8_sig.original_stop_loss) ≥
      SignalTracker.liveTrackerConfig.adaptive_stop_min_profit_r ∧
    (2 : ℚ) > C8_sig.entry_atr *
      SignalTracker.liveTrackerConfig.adaptive_stop_volatility_spike ∧
    BacktestEngine.check_adaptive_stop_trigger BacktestEngine.backtestConfig C8_pos
      101 2 "choppy" 1 = (true, some (2003/20), "volatility spike + regime change") := by
  refine ⟨?_, rfl, ?_, ?_, ?_⟩
  · simp [SignalTracker.check_adaptive_stop_trigger, SignalTracker.liveTrackerConfig,
      C8_sig]
    intro h
    exact absurd h (by norm_num)
  · norm_num [C8_sig, SignalTracker.liveTrackerConfig]
  · norm_num [C8_sig, SignalTracker.liveTrackerConfig]
  · simp [BacktestEngine.check_adaptive_stop_trigger, BacktestEngine.backtestConfig,
      C8_pos]
    norm_num
    decide
namespace SignalTracker

theorem stopLoss_ite (c : Prop) [Decidable c] (a b : Signal) :
    (if c then a else b).stop_loss = if c then a.stop_loss else b.stop_loss := by
  split <;> rfl

set_option maxHeartbeats 800000 in
theorem handle_tp_hit_no_relax_long (s : Signal) (lvl : String)
    (hdir : s.direction = "long") (hle : s.stop_loss ≤ s.entry_price) :
    s.stop_loss ≤ ((handle_tp_hit s lvl).1).stop_loss := by
  by_cases h1 : lvl = "tp1"
  · subst h1
    simp [handle_tp_hit, calculate_trailing_stop, hdir, stopLoss_ite]
    repeat' split
    all_goals simp_all
  by_cases h2 : lvl = "tp2"
  · subst h2
    simp [handle_tp_hit, calculate_trailing_stop, h1, hdir, stopLoss_ite]
    repeat' split
    all_goals simp_all
  by_cases h3 : lvl = "tp3"
  · subst h3
    simp [handle_tp_hit, calculate_trailing_stop, h1, h2, stopLoss_ite]
  · simp [handle_tp_hit, calculate_trailing_stop, h1, h2, h3, stopLoss_ite]

set_option maxHeartbeats 800000 in
theorem handle_tp_hit_no_relax_short (s : Signal) (lvl : String)
    (hdir : s.direction = "short") (hle : s.entry_price ≤ s.stop_loss) :
    ((handle_tp_hit s lvl).1).stop_loss ≤ s.stop_loss := by
  by_cases h1 : lvl = "tp1"
  · subst h1
    simp [handle_tp_hit, calculate_trailing_stop, hdir, stopLoss_ite]
    repeat' split
    all_goals simp_all
  by_cases h2 : lvl = "tp2"
  · subst h2
    simp [handle_tp_hit, calculate_trailing_stop, h1, hdir, stopLoss_ite]
    repeat' split
    all_goals simp_all
  by_cases h3 : lvl = "tp3"
  · subst h3
    simp [handle_tp_hit, calculate_trailing_stop, h1, h2, stopLoss_ite]
  · simp [handle_tp_hit, calculate_trailing_stop, h1, h2, h3, stopLoss_ite]

theorem handle_stop_loss_hit_stop_unchanged (cfg : TrackerConfig) (s : Signal)
    (hppa : s.partial_protection_active = false) :
    ((handle_stop_loss_hit cfg s).1).stop_loss = s.stop_loss := by
  unfold handle_stop_loss_hit
  simp [hppa]

end SignalTracker

namespace SignalTracker

theorem check_adaptive_short_tightens (cfg : TrackerConfig) (s : Signal)
    (p a v : ℚ) (r rs : String) (hdir : ¬s.direction = "LONG")
    (h : check_adaptive_stop_trigger cfg s p a r = (true, some v, rs)) :
    v < s.stop_loss := by
  unfold check_adaptive_stop_trigger at h
  simp only [if_neg hdir] at h
  repeat' split at h
  all_goals simp_all

theorem apply_adaptive_stop_short (cfg : TrackerConfig) (s : Signal)
    (p a : ℚ) (r : String) (hdir : s.direction = "short") :
    (apply_adaptive_stop cfg s p a r).stop_loss ≤ s.stop_loss := by
  unfold apply_adaptive_stop
  have hd : ¬s.direction = "LONG" := by simp [hdir]
  rcases hc : check_adaptive_stop_trigger cfg s p a r with ⟨b, ns, rs⟩
  cases b
  · simp
  · cases ns
    · simp
    · rename_i v
      have hv := check_adaptive_short_tightens cfg s p a v r rs hd hc
      by_cases hp : cfg.adaptive_stop_partial_protection <;> simp [hp] <;> linarith

theorem apply_adaptive_stop_long_sane (cfg : TrackerConfig) (s : Signal)
    (p a : ℚ) (r : String) (hdir : s.direction = "long")
    (hs : s.original_stop_loss < s.entry_price) :
    (apply_adaptive_stop cfg s p a r).stop_loss = s.stop_loss := by
  unfold apply_adaptive_stop
  have hd : ¬s.direction = "LONG" := by simp [hdir]
  rcases hc : check_adaptive_stop_trigger cfg s p a r with ⟨b, ns, rs⟩
  cases b
  · simp
  · cases ns
    · simp
    · rename_i v
      exfalso
      unfold check_adaptive_stop_trigger at hc
      simp only [if_neg hd] at hc
      repeat' split at hc
      all_goals simp_all
      all_goals linarith

end SignalTracker

namespace BacktestEngine

theorem pos_stopLoss_ite (c : Prop) [Decidable c] (a b : Position) :
    (if c then a else b).stop_loss = if c then a.stop_loss else b.stop_loss := by
  split <;> rfl

theorem bt_check_long_raises (cfg : BTConfig) (p : Position) (cp ca ea v : ℚ)
    (rg rs : String) (hdir : p.direction = "long")
    (h : check_adaptive_stop_trigger cfg p cp ca rg ea = (true, some v, rs)) :
    p.stop_loss < v := by
  unfold check_adaptive_stop_trigger at h
  simp only [if_pos hdir] at h
  repeat' split at h
  all_goals simp_all

theorem bt_check_short_lowers (cfg : BTConfig) (p : Position) (cp ca ea v : ℚ)
    (rg rs : String) (hdir : ¬p.direction = "long")
    (h : check_adaptive_stop_trigger cfg p cp ca rg ea = (true, some v, rs)) :
    v < p.stop_loss := by
  unfold check_adaptive_stop_trigger at h
  simp only [if_neg hdir] at h
  repeat' split at h
  all_goals simp_all

theorem adaptive_phase_no_relax_long (cfg : BTConfig) (p : Position) (close : ℚ)
    (mtf : Option (ℚ × String)) (hdir : p.direction = "long") :
    p.stop_loss ≤ (adaptive_phase cfg p close mtf).stop_loss := by
  unfold adaptive_phase
  split
  · cases mtf with
    | none => simp
    | some pr =>
      obtain ⟨ca, rg⟩ := pr
      dsimp only
      rcases hc : check_adaptive_stop_trigger cfg p close ca rg p.entry_atr with ⟨b, ns, rs⟩
      cases b
      · exact le_refl _
      · cases ns
        · exact le_refl _
        · rename_i v
          have hv := bt_check_long_raises cfg p close ca p.entry_atr v rg rs hdir hc
          dsimp only
          split
          · exact le_refl _
          · dsimp only
            linarith
  · exact le_refl _

theorem adaptive_phase_no_relax_short (cfg : BTConfig) (p : Position) (close : ℚ)
    (mtf : Option (ℚ × String)) (hdir : p.direction = "short") :
    (adaptive_phase cfg p close mtf).stop_loss ≤ p.stop_loss := by
  unfold adaptive_phase
  have hd : ¬p.direction = "long" := by simp [hdir]
  split
  · cases mtf with
    | none => simp
    | some pr =>
      obtain ⟨ca, rg⟩ := pr
      dsimp only
      rcases hc : check_adaptive_stop_trigger cfg p close ca rg p.entry_atr with ⟨b, ns, rs⟩
      cases b
      · exact le_refl _
      · cases ns
        · exact le_refl _
        · rename_i v
          have hv := bt_check_short_lowers cfg p close ca p.entry_atr v rg rs hd hc
          dsimp only
          split
          · exact le_refl _
          · dsimp only
            linarith
  · exact le_refl _

set_option maxHeartbeats 800000 in
theorem bt_handle_tp_hit_no_relax_long (cfg : BTConfig) (p : Position)
    (lvl : String) (tpq : ℚ)
    (hdir : p.direction = "long") (hle : p.stop_loss ≤ p.entry_price) :
    p.stop_loss ≤ ((handle_tp_hit cfg p lvl tpq).1).stop_loss := by
  by_cases h1 : lvl = "tp1"
  · subst h1
    simp [handle_tp_hit, hdir, pos_stopLoss_ite]
    repeat' split
    all_goals simp_all
    all_goals linarith
  by_cases h2 : lvl = "tp2"
  · subst h2
    simp [handle_tp_hit, h1, hdir, pos_stopLoss_ite]
    repeat' split
    all_goals simp_all
  by_cases h3 : lvl = "tp3"
  · subst h3
    simp [handle_tp_hit, h1, h2, pos_stopLoss_ite]
  · simp [handle_tp_hit, h1, h2, h3, pos_stopLoss_ite]

set_option maxHeartbeats 800000 in
theorem bt_handle_tp_hit_no_relax_short (cfg : BTConfig) (p : Position)
    (lvl : String) (tpq : ℚ)
    (hdir : p.direction = "short") (hle : p.entry_price ≤ p.stop_loss) :
    ((handle_tp_hit cfg p lvl tpq).1).stop_loss ≤ p.stop_loss := by
  by_cases h1 : lvl = "tp1"
  · subst h1
    simp [handle_tp_hit, hdir, pos_stopLoss_ite]
    repeat' split
    all_goals simp_all
    all_goals linarith
  by_cases h2 : lvl = "tp2"
  · subst h2
    simp [handle_tp_hit, h1, hdir, pos_stopLoss_ite]
    repeat' split
    all_goals simp_all
  by_cases h3 : lvl = "tp3"
  · subst h3
    simp [handle_tp_hit, h1, h2, pos_stopLoss_ite]
  · simp [handle_tp_hit, h1, h2, h3, pos_stopLoss_ite]

end BacktestEngine

set_option maxHeartbeats 1600000 in
open SignalTracker TrackerEvent in
theorem short_trace_step1 : SignalTracker.tracker_step SignalTracker.liveTrackerConfig
    shortSig0 (price (193/2)) = shortSig1 := by
  simp [SignalTracker.tracker_step, SignalTracker.update_signal_price,
    SignalTracker.handle_tp_hit, SignalTracker.handle_stop_loss_hit,
    SignalTracker.check_near_tp_reversal, SignalTracker.next_tp_level,
    SignalTracker.calculate_trailing_stop, tpLevelOf, SignalTracker.liveTrackerConfig,
    shortSig0, shortSig1]
  norm_num

set_option maxHeartbeats 1600000 in
open SignalTracker TrackerEvent in
theorem short_trace_step2 : SignalTracker.tracker_step SignalTracker.liveTrackerConfig
    shortSig1 (adaptive 98 2 "choppy") = shortSig2 := by
  simp [SignalTracker.tracker_step, SignalTracker.apply_adaptive_stop,
    SignalTracker.check_adaptive_stop_trigger, SignalTracker.liveTrackerConfig,
    shortSig0, shortSig1, shortSig2]
  norm_num
  simp

set_option maxHeartbeats 1600000 in
open SignalTracker TrackerEvent in
theorem short_trace_step3 : SignalTracker.tracker_step SignalTracker.liveTrackerConfig
    shortSig2 (price 100) = shortSig3 := by
  simp [SignalTracker.tracker_step, SignalTracker.update_signal_price,
    SignalTracker.handle_tp_hit, SignalTracker.handle_stop_loss_hit,
    SignalTracker.check_near_tp_reversal, SignalTracker.next_tp_level,
    SignalTracker.calculate_trailing_stop, tpLevelOf, SignalTracker.liveTrackerConfig,
    shortSig0, shortSig1, shortSig2, shortSig3]
  norm_num

set_option maxHeartbeats 1600000 in
open SignalTracker TrackerEvent in
theorem short_trace_step4 : SignalTracker.tracker_step SignalTracker.liveTrackerConfig
    shortSig3 (price 94) = shortSig4 := by
  simp [SignalTracker.tracker_step, SignalTracker.update_signal_price,
    SignalTracker.handle_tp_hit, SignalTracker.handle_stop_loss_hit,
    SignalTracker.check_near_tp_reversal, SignalTracker.next_tp_level,
    SignalTracker.calculate_trailing_stop, tpLevelOf, SignalTracker.liveTrackerConfig,
    shortSig0, shortSig1, shortSig2, shortSig3, shortSig4]
  norm_num

open SignalTracker TrackerEvent in
theorem short_trace_runs :
    SignalTracker.tracker_run SignalTracker.liveTrackerConfig shortSig0
      [price (193/2), adaptive 98 2 "choppy"] = shortSig2 ∧
    SignalTracker.tracker_run SignalTracker.liveTrackerConfig shortSig0
      [price (193/2), adaptive 98 2 "choppy", price 100] = shortSig3 ∧
    SignalTracker.tracker_run SignalTracker.liveTrackerConfig shortSig0
      [price (193/2), adaptive 98 2 "choppy", price 100, price 94] = shortSig4 := by
  refine ⟨?_, ?_, ?_⟩ <;>
    simp only [SignalTracker.tracker_run, List.foldl_cons, List.foldl_nil,
      short_trace_step1, short_trace_step2, short_trace_step3, short_trace_step4]

open SignalTracker TrackerEvent in
/-- C2 counterexample: for a short signal the stop_loss sequence must be
non-increasing, but the live tracker relaxes it.  Starting from a short at
entry 100 with stop 104, a tp1 fill trails the stop to 102, an adaptive
trigger tightens it to 99.85 and arms partial protection; the next price
update crosses that stop and the partial-protection branch of
_handle_stop_loss_hit restores the stop to the original 104 - a relaxation
from 99.85 to 104 on a still-active position. -/
theorem C2_monotonic_stop_counterexample :
    shortSig0.direction = "short" ∧
    (SignalTracker.tracker_run SignalTracker.liveTrackerConfig shortSig0
      [price (193/2), adaptive 98 2 "choppy"]).stop_loss = 1997/20 ∧
    (SignalTracker.tracker_run SignalTracker.liveTrackerConfig shortSig0
      [price (193/2), adaptive 98 2 "choppy"]).status = "active" ∧
    (SignalTracker.tracker_run SignalTracker.liveTrackerConfig shortSig0
      [price (193/2), adaptive 98 2 "choppy", price 100]).stop_loss = 104 ∧
    (SignalTracker.tracker_run SignalTracker.liveTrackerConfig shortSig0
      [price (193/2), adaptive 98 2 "choppy", price 100]).status = "active" ∧
    ((1997 : ℚ)/20 < 104) := by
  obtain ⟨h2, h3, _⟩ := short_trace_runs
  refine ⟨rfl, ?_, ?_, ?_, ?_, by norm_num⟩
  · rw [h2]; rfl
  · rw [h2]; rfl
  · rw [h3]; rfl
  · rw [h3]; rfl

open SignalTracker BacktestEngine in
/-- C2 (amended): every stop-moving operation except the live
partial-protection stop handler respects stop monotonicity.  For a live
long signal whose stop is at or below entry: TP trailing never lowers the
stop, the stop handler without partial protection leaves it unchanged, and
the adaptive-stop application leaves it unchanged whenever the original
stop is below entry.  For a live short whose stop is at or above entry:
TP trailing never raises it, the stop handler without partial protection
leaves it unchanged, and the adaptive-stop application never raises it.
In the backtest engine the adaptive phase and TP trailing obey the same
monotonicity for both directions. -/
theorem C2_monotonic_stop_amended
    (cfg : SignalTracker.TrackerConfig) (bcfg : BacktestEngine.BTConfig)
    (sL sS : SignalTracker.Signal) (bL bS : BacktestEngine.Position)
    (lvl : String) (p a close tpq : ℚ) (r : String) (mtf : Option (ℚ × String))
    (hL : sL.direction = "long") (hLs : sL.stop_loss ≤ sL.entry_price)
    (hLo : sL.original_stop_loss < sL.entry_price)
    (hLp : sL.partial_protection_active = false)
    (hS : sS.direction = "short") (hSs : sS.entry_price ≤ sS.stop_loss)
    (hSp : sS.partial_protection_active = false)
    (hbL : bL.direction = "long") (hbLs : bL.stop_loss ≤ bL.entry_price)
    (hbS : bS.direction = "short") (hbSs : bS.entry_price ≤ bS.stop_loss) :
    sL.stop_loss ≤ ((SignalTracker.handle_tp_hit sL lvl).1).stop_loss ∧
    ((SignalTracker.handle_tp_hit sS lvl).1).stop_loss ≤ sS.stop_loss ∧
    ((SignalTracker.handle_stop_loss_hit cfg sL).1).stop_loss = sL.stop_loss ∧
    ((SignalTracker.handle_stop_loss_hit cfg sS).1).stop_loss = sS.stop_loss ∧
    (SignalTracker.apply_adaptive_stop cfg sL p a r).stop_loss = sL.stop_loss ∧
    (SignalTracker.apply_adaptive_stop cfg sS p a r).stop_loss ≤ sS.stop_loss ∧
    bL.stop_loss ≤ (BacktestEngine.adaptive_phase bcfg bL close mtf).stop_loss ∧
    (BacktestEngine.adaptive_phase bcfg bS close mtf).stop_loss ≤ bS.stop_loss ∧
    bL.stop_loss ≤ ((BacktestEngine.handle_tp_hit bcfg bL lvl tpq).1).stop_loss ∧
    ((BacktestEngine.handle_tp_hit bcfg bS lvl tpq).1).stop_loss ≤ bS.stop_loss :=
  ⟨handle_tp_hit_no_relax_long sL lvl hL hLs,
   handle_tp_hit_no_relax_short sS lvl hS hSs,
   handle_stop_loss_hit_stop_unchanged cfg sL hLp,
   handle_stop_loss_hit_stop_unchanged cfg sS hSp,
   apply_adaptive_stop_long_sane cfg sL p a r hL hLo,
   apply_adaptive_stop_short cfg sS p a r hS,
   adaptive_phase_no_relax_long bcfg bL close mtf hbL,
   adaptive_phase_no_relax_short bcfg bS close mtf hbS,
   bt_handle_tp_hit_no_relax_long bcfg bL lvl tpq hbL hbLs,
   bt_handle_tp_hit_no_relax_short bcfg bS lvl tpq hbS hbSs⟩

/-- C2 witness: the amended monotonicity at a concrete long signal (entry
100, stop 98) and a concrete short signal (entry 100, stop 104), with
every hypothesis discharged numerically. -/
theorem C2_monotonic_stop_amended_witness :
    C8_sig.stop_loss ≤ ((SignalTracker.handle_tp_hit C8_sig "tp1").1).stop_loss ∧
    ((SignalTracker.handle_tp_hit shortSig0 "tp1").1).stop_loss ≤ shortSig0.stop_loss ∧
    ((SignalTracker.handle_stop_loss_hit SignalTracker.liveTrackerConfig
      C8_sig).1).stop_loss = C8_sig.stop_loss ∧
    ((SignalTracker.handle_stop_loss_hit SignalTracker.liveTrackerConfig
      shortSig0).1).stop_loss = shortSig0.stop_loss ∧
    (SignalTracker.apply_adaptive_stop SignalTracker.liveTrackerConfig C8_sig
      101 2 "choppy").stop_loss = C8_sig.stop_loss ∧
    (SignalTracker.apply_adaptive_stop SignalTracker.liveTrackerConfig shortSig0
      101 2 "choppy").stop_loss ≤ shortSig0.stop_loss ∧
    C8_pos.stop_loss ≤ (BacktestEngine.adaptive_phase BacktestEngine.backtestConfig
      C8_pos 101 (some (2, "choppy"))).stop_loss ∧
    (BacktestEngine.adaptive_phase BacktestEngine.backtestConfig btShortPos
      101 (some (2, "choppy"))).stop_loss ≤ btShortPos.stop_loss ∧
    C8_pos.stop_loss ≤ ((BacktestEngine.handle_tp_hit BacktestEngine.backtestConfig
      C8_pos "tp1" 103).1).stop_loss ∧
    ((BacktestEngine.handle_tp_hit BacktestEngine.backtestConfig btShortPos
      "tp1" 97).1).stop_loss ≤ btShortPos.stop_loss :=
  C2_monotonic_stop_amended SignalTracker.liveTrackerConfig BacktestEngine.backtestConfig
    C8_sig shortSig0 C8_pos btShortPos "tp1" 101 2 101 103 "choppy" (some (2, "choppy"))
    rfl (by norm_num [C8_sig]) (by norm_num [C8_sig]) rfl
    rfl (by norm_num [shortSig0]) rfl
    rfl (by norm_num [C8_pos]) rfl (by norm_num [btShortPos])

namespace SignalTracker

theorem next_tp_level_unhit (s : Signal) (lvl : String)
    (hn : next_tp_level s = some lvl) :
    lvl = "tp1" ∧ s.tp1_hit = false ∨ lvl = "tp2" ∧ s.tp2_hit = false ∨
    lvl = "tp3" ∧ s.tp3_hit = false := by
  unfold next_tp_level at hn
  repeat' split at hn
  all_goals simp_all

theorem near_tp_unhit (cfg : TrackerConfig) (s : Signal) (r : Signal × HitInfo)
    (hr : check_near_tp_reversal cfg s = some r) :
    ∃ lvl, r = handle_tp_hit s lvl ∧
      (lvl = "tp1" ∧ s.tp1_hit = false ∨ lvl = "tp2" ∧ s.tp2_hit = false ∨
       lvl = "tp3" ∧ s.tp3_hit = false) := by
  unfold check_near_tp_reversal at hr
  rcases hn : next_tp_level s with _ | lvl
  · rw [hn] at hr
    exact Option.noConfusion hr
  · rw [hn] at hr
    dsimp only at hr
    repeat' split at hr
    all_goals first
      | exact Option.noConfusion hr
      | exact ⟨lvl, (Option.some.inj hr).symm, next_tp_level_unhit s lvl hn⟩

set_option maxHeartbeats 1600000 in
theorem handle_tp_hit_accounting (s : Signal) (lvl : String)
    (h : lvl = "tp1" ∧ s.tp1_hit = false ∨ lvl = "tp2" ∧ s.tp2_hit = false ∨
         lvl = "tp3" ∧ s.tp3_hit = false) :
    ((handle_tp_hit s lvl).1).take_profits = s.take_profits ∧
    ((handle_tp_hit s lvl).1).partial_protection_active = s.partial_protection_active ∧
    ((handle_tp_hit s lvl).1).remaining_percent =
      s.remaining_percent - (tpLevelOf s.take_profits lvl).close_percent ∧
    filled_percent ((handle_tp_hit s lvl).1) =
      filled_percent s + (tpLevelOf s.take_profits lvl).close_percent ∧
    (((handle_tp_hit s lvl).1).status = "active" →
      0 < ((handle_tp_hit s lvl).1).remaining_percent) := by
  rcases h with ⟨h1, hf⟩ | ⟨h2, hf⟩ | ⟨h3, hf⟩
  · subst h1
    simp [handle_tp_hit, filled_percent, tpLevelOf, hf]
    repeat' split
    all_goals simp_all
    all_goals linarith
  · subst h2
    simp [handle_tp_hit, filled_percent, tpLevelOf, hf]
    repeat' split
    all_goals simp_all
    all_goals linarith
  · subst h3
    simp [handle_tp_hit, filled_percent, tpLevelOf, hf]
    repeat' split
    all_goals simp_all
    all_goals linarith

end SignalTracker

namespace SignalTracker

theorem handle_stop_loss_hit_accounting (cfg : TrackerConfig) (s : Signal)
    (hppa : s.partial_protection_active = false) :
    ((handle_stop_loss_hit cfg s).1).take_profits = s.take_profits ∧
    ((handle_stop_loss_hit cfg s).1).partial_protection_active = false ∧
    ((handle_stop_loss_hit cfg s).1).remaining_percent = s.remaining_percent ∧
    filled_percent ((handle_stop_loss_hit cfg s).1) = filled_percent s ∧
    ((handle_stop_loss_hit cfg s).1).status = "stopped" := by
  unfold handle_stop_loss_hit
  simp [hppa, filled_percent]

theorem apply_adaptive_stop_accounting (cfg : TrackerConfig) (s : Signal)
    (p a : ℚ) (r : String) (hcfg : cfg.adaptive_stop_partial_protection = false) :
    (apply_adaptive_stop cfg s p a r).take_profits = s.take_profits ∧
    (apply_adaptive_stop cfg s p a r).partial_protection_active =
      s.partial_protection_active ∧
    (apply_adaptive_stop cfg s p a r).remaining_percent = s.remaining_percent ∧
    filled_percent (apply_adaptive_stop cfg s p a r) = filled_percent s ∧
    (apply_adaptive_stop cfg s p a r).status = s.status := by
  unfold apply_adaptive_stop
  rcases hc : check_adaptive_stop_trigger cfg s p a r with ⟨b, ns, rs⟩
  cases b
  · simp [filled_percent]
  · cases ns
    · simp [filled_percent]
    · simp [hcfg, filled_percent]

end SignalTracker

namespace SignalTracker

set_option maxHeartbeats 1600000 in
theorem update_signal_price_cases (cfg : TrackerConfig) (s : Signal) (q : ℚ) :
    ∃ s1 : Signal, s1.take_profits = s.take_profits ∧ s1.tp1_hit = s.tp1_hit ∧
      s1.tp2_hit = s.tp2_hit ∧ s1.tp3_hit = s.tp3_hit ∧
      s1.remaining_percent = s.remaining_percent ∧ s1.status = s.status ∧
      s1.realized_pnl = s.realized_pnl ∧
      s1.partial_protection_active = s.partial_protection_active ∧
      ((update_signal_price cfg s q).1 = s1 ∨
       (update_signal_price cfg s q).1 = (handle_stop_loss_hit cfg s1).1 ∨
       ∃ lvl, (lvl = "tp1" ∧ s1.tp1_hit = false ∨ lvl = "tp2" ∧ s1.tp2_hit = false ∨
               lvl = "tp3" ∧ s1.tp3_hit = false) ∧
         (update_signal_price cfg s q).1 = (handle_tp_hit s1 lvl).1) := by
  by_cases hdir : s.direction = "long"
  · refine ⟨{ s with current_price := q, best_price := max s.best_price q },
      by simp, by simp, by simp, by simp, by simp, by simp, by simp, by simp, ?_⟩
    simp only [update_signal_price, hdir, if_true, if_pos]
    repeat' split
    all_goals try (exact Or.inl rfl)
    all_goals try (exact Or.inr (Or.inl rfl))
    · rename_i hc
      exact Or.inr (Or.inr ⟨"tp1", Or.inl ⟨rfl, by simpa using hc.2⟩, rfl⟩)
    · rename_i hc
      exact Or.inr (Or.inr ⟨"tp2", Or.inr (Or.inl ⟨rfl, by simpa using hc.2.1⟩), rfl⟩)
    · rename_i hc
      exact Or.inr (Or.inr ⟨"tp3", Or.inr (Or.inr ⟨rfl, by simpa using hc.2.1⟩), rfl⟩)
    · rename_i r hnr
      obtain ⟨lvl, hrw, hun⟩ := near_tp_unhit cfg _ r hnr
      exact Or.inr (Or.inr ⟨lvl, hun, by rw [hrw]⟩)
  · refine ⟨{ s with current_price := q, best_price := min s.best_price q },
      by simp, by simp, by simp, by simp, by simp, by simp, by simp, by simp, ?_⟩
    simp only [update_signal_price, hdir, if_false, if_neg]
    repeat' split
    all_goals try (exact Or.inl rfl)
    all_goals try (exact Or.inr (Or.inl rfl))
    · rename_i hc
      exact Or.inr (Or.inr ⟨"tp1", Or.inl ⟨rfl, by simpa using hc.2⟩, rfl⟩)
    · rename_i hc
      exact Or.inr (Or.inr ⟨"tp2", Or.inr (Or.inl ⟨rfl, by simpa using hc.2.1⟩), rfl⟩)
    · rename_i hc
      exact Or.inr (Or.inr ⟨"tp3", Or.inr (Or.inr ⟨rfl, by simpa using hc.2.1⟩), rfl⟩)
    · rename_i r hnr
      obtain ⟨lvl, hrw, hun⟩ := near_tp_unhit cfg _ r hnr
      exact Or.inr (Or.inr ⟨lvl, hun, by rw [hrw]⟩)

end SignalTracker

namespace SignalTracker

theorem filled_percent_congr (s1 s : Signal) (ht : s1.take_profits = s.take_profits)
    (h1 : s1.tp1_hit = s.tp1_hit) (h2 : s1.tp2_hit = s.tp2_hit)
    (h3 : s1.tp3_hit = s.tp3_hit) : filled_percent s1 = filled_percent s := by
  simp [filled_percent, ht, h1, h2, h3]

theorem tracker_step_accounting (cfg : TrackerConfig) (s : Signal) (e : TrackerEvent)
    (hcfg : cfg.adaptive_stop_partial_protection = false)
    (hppa : s.partial_protection_active = false) :
    (tracker_step cfg s e).take_profits = s.take_profits ∧
    (tracker_step cfg s e).partial_protection_active = false ∧
    (tracker_step cfg s e).remaining_percent + filled_percent (tracker_step cfg s e) =
      s.remaining_percent + filled_percent s ∧
    (0 ≤ s.take_profits.tp1.close_percent → 0 ≤ s.take_profits.tp2.close_percent →
     0 ≤ s.take_profits.tp3.close_percent →
     (tracker_step cfg s e).remaining_percent ≤ s.remaining_percent) ∧
    ((s.status = "active" → 0 < s.remaining_percent) →
     (tracker_step cfg s e).status = "active" →
     0 < (tracker_step cfg s e).remaining_percent) := by
  unfold tracker_step
  split
  · cases e with
    | price q =>
      dsimp only
      obtain ⟨s1, ht, h1, h2, h3, hrem, hst, hpnl, hpa, hdisp⟩ :=
        update_signal_price_cases cfg s q
      have hfill : filled_percent s1 = filled_percent s :=
        filled_percent_congr s1 s ht h1 h2 h3
      rcases hdisp with heq | heq | ⟨lvl, hun, heq⟩
      · refine ⟨?_, ?_, ?_, ?_, ?_⟩
        · rw [heq, ht]
        · rw [heq, hpa]; exact hppa
        · rw [heq, hrem, hfill]
        · intro _ _ _; rw [heq, hrem]
        · intro h ha
          rw [heq] at ha ⊢
          rw [hrem]
          exact h (hst ▸ ha)
      · obtain ⟨a1, a2, a3, a4, a5⟩ :=
          handle_stop_loss_hit_accounting cfg s1 (hpa.trans hppa)
        refine ⟨?_, ?_, ?_, ?_, ?_⟩
        · rw [heq, a1, ht]
        · rw [heq]; exact a2
        · rw [heq, a3, a4, hrem, hfill]
        · intro _ _ _; rw [heq, a3, hrem]
        · intro _ hact
          rw [heq, a5] at hact
          exact absurd hact (by simp)
      · obtain ⟨b1, b2, b3, b4, b5⟩ := handle_tp_hit_accounting s1 lvl hun
        refine ⟨?_, ?_, ?_, ?_, ?_⟩
        · rw [heq, b1, ht]
        · rw [heq, b2, hpa]; exact hppa
        · rw [heq, b3, b4, hrem, hfill]; ring
        · intro n1 n2 n3
          rw [heq, b3, hrem]
          have hcp : 0 ≤ (tpLevelOf s1.take_profits lvl).close_percent := by
            rcases hun with ⟨hl, _⟩ | ⟨hl, _⟩ | ⟨hl, _⟩ <;> subst hl <;>
              simp [tpLevelOf, ht] <;> assumption
          linarith
        · intro _ hact
          rw [heq] at hact ⊢
          exact b5 hact
    | adaptive p a r =>
      dsimp only
      obtain ⟨c1, c2, c3, c4, c5⟩ := apply_adaptive_stop_accounting cfg s p a r hcfg
      exact ⟨c1, by rw [c2]; exact hppa, by rw [c3, c4], fun _ _ _ => by rw [c3],
        fun h ha => by rw [c3]; exact h (c5 ▸ ha)⟩
  · exact ⟨rfl, hppa, rfl, fun _ _ _ => le_refl _, fun h => h⟩

theorem tracker_run_accounting (cfg : TrackerConfig)
    (hcfg : cfg.adaptive_stop_partial_protection = false) :
    ∀ (es : List TrackerEvent) (s : Signal), s.partial_protection_active = false →
    (tracker_run cfg s es).take_profits = s.take_profits ∧
    (tracker_run cfg s es).partial_protection_active = false ∧
    (tracker_run cfg s es).remaining_percent + filled_percent (tracker_run cfg s es) =
      s.remaining_percent + filled_percent s ∧
    (0 ≤ s.take_profits.tp1.close_percent → 0 ≤ s.take_profits.tp2.close_percent →
     0 ≤ s.take_profits.tp3.close_percent →
     (tracker_run cfg s es).remaining_percent ≤ s.remaining_percent) ∧
    ((s.status = "active" → 0 < s.remaining_percent) →
     (tracker_run cfg s es).status = "active" →
     0 < (tracker_run cfg s es).remaining_percent) := by
  intro es
  induction es with
  | nil =>
    intro s hppa
    exact ⟨rfl, hppa, rfl, fun _ _ _ => le_refl _, fun h => h⟩
  | cons e es ih =>
    intro s hppa
    obtain ⟨s1, s2, s3, s4, s5⟩ := tracker_step_accounting cfg s e hcfg hppa
    obtain ⟨r1, r2, r3, r4, r5⟩ := ih (tracker_step cfg s e) s2
    have hrun : tracker_run cfg s (e :: es) = tracker_run cfg (tracker_step cfg s e) es := by
      simp [tracker_run]
    refine ⟨?_, ?_, ?_, ?_, ?_⟩
    · rw [hrun, r1, s1]
    · rw [hrun]; exact r2
    · rw [hrun]; rw [r3, s3]
    · intro n1 n2 n3
      rw [hrun]
      have h4 := r4 (by rw [s1]; exact n1) (by rw [s1]; exact n2) (by rw [s1]; exact n3)
      have h5 := s4 n1 n2 n3
      linarith
    · intro h ha
      rw [hrun] at ha ⊢
      exact r5 (s5 h) ha

end SignalTracker

namespace SignalTracker

theorem filled_percent_bounds (s : Signal)
    (hc1 : 0 ≤ s.take_profits.tp1.close_percent)
    (hc2 : 0 ≤ s.take_profits.tp2.close_percent)
    (hc3 : 0 ≤ s.take_profits.tp3.close_percent) :
    0 ≤ filled_percent s ∧ filled_percent s ≤ s.take_profits.tp1.close_percent +
      s.take_profits.tp2.close_percent + s.take_profits.tp3.close_percent := by
  unfold filled_percent
  repeat' split
  all_goals constructor
  all_goals linarith

end SignalTracker


open SignalTracker TrackerEvent in
/-- C5 counterexample: remaining_percent does not stay within [0,100] and
the partial fills do not sum to 100.  On the short trace of the C2
counterexample a tp1 fill closes 50, the partial-protection exit closes
half of the remaining 50 (25 points), and the tp2 fill then subtracts its
full 30 from the remaining 25, driving remaining_percent to -5 on the
closed position (fills 50 + 25 + 30 = 105). -/
theorem C5_partial_close_conservation_counterexample :
    (SignalTracker.tracker_run SignalTracker.liveTrackerConfig shortSig0
      [price (193/2), adaptive 98 2 "choppy", price 100,
        price 94]).remaining_percent = -5 ∧
    (SignalTracker.tracker_run SignalTracker.liveTrackerConfig shortSig0
      [price (193/2), adaptive 98 2 "choppy", price 100,
        price 94]).status = "completed" ∧
    ((-5 : ℚ) < 0) := by
  obtain ⟨_, _, h4⟩ := short_trace_runs
  exact ⟨by rw [h4]; rfl, by rw [h4]; rfl, by norm_num⟩

open SignalTracker in
/-- C5 (amended): with the partial-protection mode disabled the claimed
invariants hold for every event sequence: remaining_percent plus the sum
of the filled levels' close_percents stays exactly 100 (so the final
stop/forced close of the remainder completes the conservation),
remaining_percent stays in [0,100] and is non-increasing, and a signal
whose remaining_percent has reached 0 is never still active. -/
theorem C5_partial_close_conservation_amended (cfg : SignalTracker.TrackerConfig)
    (s0 : SignalTracker.Signal) (es : List SignalTracker.TrackerEvent)
    (hcfg : cfg.adaptive_stop_partial_protection = false)
    (hppa : s0.partial_protection_active = false)
    (hcons : s0.remaining_percent + filled_percent s0 = 100)
    (hact : s0.status = "active" → 0 < s0.remaining_percent)
    (hc1 : 0 ≤ s0.take_profits.tp1.close_percent)
    (hc2 : 0 ≤ s0.take_profits.tp2.close_percent)
    (hc3 : 0 ≤ s0.take_profits.tp3.close_percent)
    (hsum : s0.take_profits.tp1.close_percent + s0.take_profits.tp2.close_percent +
      s0.take_profits.tp3.close_percent ≤ 100) :
    (tracker_run cfg s0 es).remaining_percent +
      filled_percent (tracker_run cfg s0 es) = 100 ∧
    0 ≤ (tracker_run cfg s0 es).remaining_percent ∧
    (tracker_run cfg s0 es).remaining_percent ≤ 100 ∧
    (tracker_run cfg s0 es).remaining_percent ≤ s0.remaining_percent ∧
    ((tracker_run cfg s0 es).status = "active" →
      0 < (tracker_run cfg s0 es).remaining_percent) := by
  obtain ⟨r1, r2, r3, r4, r5⟩ := tracker_run_accounting cfg hcfg es s0 hppa
  have hcons' : (tracker_run cfg s0 es).remaining_percent +
      filled_percent (tracker_run cfg s0 es) = 100 := by rw [r3, hcons]
  obtain ⟨hb1, hb2⟩ := filled_percent_bounds (tracker_run cfg s0 es)
    (by rw [r1]; exact hc1) (by rw [r1]; exact hc2) (by rw [r1]; exact hc3)
  rw [r1] at hb2
  exact ⟨hcons', by linarith, by linarith, r4 hc1 hc2 hc3, r5 hact⟩

open SignalTracker TrackerEvent in
/-- C5 witness: the amended invariant applied to a concrete short signal
with TP splits 50/30/20 and a single price update, with every hypothesis
discharged numerically. -/
theorem C5_partial_close_conservation_amended_witness :
    (tracker_run noPPTrackerConfig shortSig0 [price (193/2)]).remaining_percent +
      filled_percent (tracker_run noPPTrackerConfig shortSig0 [price (193/2)]) = 100 ∧
    0 ≤ (tracker_run noPPTrackerConfig shortSig0 [price (193/2)]).remaining_percent ∧
    (tracker_run noPPTrackerConfig shortSig0 [price (193/2)]).remaining_percent ≤ 100 ∧
    (tracker_run noPPTrackerConfig shortSig0 [price (193/2)]).remaining_percent ≤
      shortSig0.remaining_percent ∧
    ((tracker_run noPPTrackerConfig shortSig0 [price (193/2)]).status = "active" →
      0 < (tracker_run noPPTrackerConfig shortSig0 [price (193/2)]).remaining_percent) :=
  C5_partial_close_conservation_amended noPPTrackerConfig shortSig0 [price (193/2)]
    rfl rfl (by norm_num [SignalTracker.filled_percent, shortSig0])
    (fun _ => by norm_num [shortSig0])
    (by norm_num [shortSig0]) (by norm_num [shortSig0]) (by norm_num [shortSig0])
    (by norm_num [shortSig0])
